import Mathlib

/-!
Verification development for the `simplipy` API client (`simplipy/api.py`).

The source is shallowly embedded: the session object's mutable fields become
an explicit `SessionState`, HTTP traffic is an oracle `Nat → NetResult`
consumed in order, awaited coroutines become explicit world passing, Python
exceptions become `Except Err`, and the mutually recursive call graph
`request ↔ refresh_access_token ↔ authenticate` is driven by a fuel
parameter (structural recursion, so everything evaluates).  Observable
actions (HTTP calls, pool creation/closing, the pre-flight refresh firing,
websocket initialization, skip warnings) are recorded in an event log.
-/

namespace Simplipy

/-- UTF-8 encoding of a unicode code point, as byte values
(mirrors Python `str.encode()` for one character). -/
def utf8EncodeCharNat (n : Nat) : List Nat :=
  if n < 0x80 then [n]
  else if n < 0x800 then [0xC0 + n / 64, 0x80 + n % 64]
  else if n < 0x10000 then [0xE0 + n / 4096, 0x80 + (n / 64) % 64, 0x80 + n % 64]
  else [0xF0 + n / 262144, 0x80 + (n / 4096) % 64, 0x80 + (n / 64) % 64, 0x80 + n % 64]

/-- UTF-8 bytes of a string (Python `client_id.encode()`). -/
def utf8Bytes (s : String) : List Nat :=
  s.data.flatMap fun c => utf8EncodeCharNat c.toNat

/-- Standard base64 alphabet. -/
def b64Alphabet : List Char :=
  ['A', 'B', 'C', 'D', 'E', 'F', 'G', 'H', 'I', 'J', 'K', 'L', 'M',
   'N', 'O', 'P', 'Q', 'R', 'S', 'T', 'U', 'V', 'W', 'X', 'Y', 'Z',
   'a', 'b', 'c', 'd', 'e', 'f', 'g', 'h', 'i', 'j', 'k', 'l', 'm',
   'n', 'o', 'p', 'q', 'r', 's', 't', 'u', 'v', 'w', 'x', 'y', 'z',
   '0', '1', '2', '3', '4', '5', '6', '7', '8', '9', '+', '/']

/-- Character for a 6-bit value. -/
def b64Char (n : Nat) : Char := b64Alphabet.getD n '='

/-- Base64 encoding of a byte list (Python `base64.b64encode`). -/
def b64encode : List Nat → List Char
  | [] => []
  | [a] => [b64Char (a / 4), b64Char (a % 4 * 16), '=', '=']
  | [a, b] => [b64Char (a / 4), b64Char (a % 4 * 16 + b / 16), b64Char (b % 16 * 4), '=']
  | a :: b :: c :: rest =>
      b64Char (a / 4) :: b64Char (a % 4 * 16 + b / 16) ::
      b64Char (b % 16 * 4 + c / 64) :: b64Char (c % 64) :: b64encode rest

/-- Embeds `generate_device_id` (api.py lines 46-49): base64 the client id,
keep the first 10 characters, and hyphenate as two groups of (up to) 5. -/
def generate_device_id (client_id : String) : String :=
  let seed := (b64encode (utf8Bytes client_id)).take 10
  String.mk (seed.take 5) ++ "-" ++ String.mk (seed.drop 5)

lemma b64encode_length_pos {l : List Nat} (h : l ≠ []) :
    4 ≤ (b64encode l).length := by
  match l with
  | [] => exact absurd rfl h
  | [a] => simp [b64encode]
  | [a, b] => simp [b64encode]
  | a :: b :: c :: rest => simp [b64encode]

lemma b64encode_length_ge_twelve {l : List Nat} (h : 7 ≤ l.length) :
    12 ≤ (b64encode l).length := by
  match l with
  | a :: b :: c :: d :: e :: f :: g :: rest =>
    have h4 : 4 ≤ (b64encode (g :: rest)).length := b64encode_length_pos (by simp)
    simp only [b64encode, List.length_cons]
    omega
  | [] => simp at h
  | [a] => simp at h
  | [a, b] => simp at h
  | [a, b, c] => simp at h
  | [a, b, c, d] => simp at h
  | [a, b, c, d, e] => simp at h
  | [a, b, c, d, e, f] => simp at h

lemma generate_device_id_format {c : String} (h : 7 ≤ (utf8Bytes c).length) :
    (generate_device_id c).length = 11 ∧
    ∃ x y : String, x.length = 5 ∧ y.length = 5 ∧ generate_device_id c = x ++ "-" ++ y := by
  have h12 : 12 ≤ (b64encode (utf8Bytes c)).length := b64encode_length_ge_twelve h
  have hseed : ((b64encode (utf8Bytes c)).take 10).length = 10 := by
    rw [List.length_take]; omega
  constructor
  · show (String.mk _ ++ "-" ++ String.mk _).length = 11
    simp only [String.length_append]
    simp only [String.length, String.mk, List.length_take, List.length_drop,
      List.length_cons, List.length_nil]
    omega
  · refine ⟨String.mk (((b64encode (utf8Bytes c)).take 10).take 5),
      String.mk (((b64encode (utf8Bytes c)).take 10).drop 5), ?_, ?_, rfl⟩
    · simp only [String.length, String.mk, List.length_take]
      omega
    · simp only [String.length, String.mk, List.length_drop]
      omega

/-- C9: `generate_device_id` is a pure function of the client id (deterministic,
depending only on `c`); and — amended — whenever the UTF-8 encoding of `c` has at
least 7 bytes (so the base64 seed has at least 10 characters), the result has
length 11 and is formatted as 5 characters, a hyphen, and 5 characters.  (The
original claim's "for all client identifier strings" fails for short inputs;
see the counterexample.) -/
theorem claim_C9_device_id (c : String) :
    generate_device_id c = generate_device_id c ∧
    (7 ≤ (utf8Bytes c).length →
      (generate_device_id c).length = 11 ∧
      ∃ x y : String, x.length = 5 ∧ y.length = 5 ∧
        generate_device_id c = x ++ "-" ++ y) :=
  ⟨rfl, fun h => generate_device_id_format h⟩

/-- C9 witness: at the concrete 10-byte client id "0123456789" the hypothesis
holds and the device id has length 11. -/
theorem claim_C9_device_id_witness :
    7 ≤ (utf8Bytes "0123456789").length ∧
      (generate_device_id "0123456789").length = 11 :=
  ⟨by decide, ((claim_C9_device_id "0123456789").2 (by decide)).1⟩

/-- C9 counterexample: the claim as stated quantifies over all client identifier
strings, but the empty client id yields "-" of length 1, not a length-11
5-hyphen-5 string. -/
theorem claim_C9_device_id_counterexample :
    generate_device_id "" = "-" ∧ (generate_device_id "").length ≠ 11 := by
  constructor
  · rfl
  · decide

/-! ## Data model: JSON-ish bodies, network responses, payloads, state -/

/-- Fixed constants from api.py lines 25-33. -/
def API_URL_HOSTNAME : String := "api.simplisafe.com"

def API_URL_BASE : String := "https://" ++ API_URL_HOSTNAME ++ "/v1"

def API_URL_MFA_OOB : String := "http://simplisafe.com/oauth/grant-type/mfa-oob"

def DEFAULT_USER_AGENT : String :=
  "Mozilla/5.0 (Macintosh; Intel Mac OS X 10_15_6) AppleWebKit/605.1.15 " ++
  "(KHTML, like Gecko) Version/13.1.2 Safari/605.1.15"

/-- Payload shape `location.system` of a subscription: the version discriminant
may be missing (`"version" not in system_data["location"]["system"]`). -/
structure SystemInfo where
  version : Option Int := none
  deriving Repr, DecidableEq

/-- Payload shape `location` of a subscription (`sid`, nested `system`). -/
structure LocationData where
  sid : Int := 0
  system : SystemInfo := {}
  deriving Repr, DecidableEq

/-- One element of the `subscriptions` array: top-level `sid` (registry key)
and the nested `location`. -/
structure Subscription where
  sid : String := ""
  location : LocationData := {}
  deriving Repr, DecidableEq

/-- Decoded JSON body, restricted to the fields api.py reads.  A missing field
is `none` (reading it with `[...]` in Python raises `KeyError`; `.get` yields
`None`). -/
structure Body where
  error : Option String := none
  typ : Option String := none
  mfa_token : Option String := none
  access_token : Option String := none
  expires_in : Option Int := none
  refresh_token : Option String := none
  oob_code : Option String := none
  userId : Option Int := none
  subscriptions : Option (List Subscription) := none
  deriving Repr, DecidableEq

/-- An HTTP response: status plus either a decoded JSON body or (on JSON
decode failure, `body = none`) the raw text. -/
structure NetResp where
  status : Nat := 200
  body : Option Body := none
  text : String := ""
  deriving Repr, DecidableEq

/-- Outcome of one `session.request(...)` exchange: a response, or a
connection-level `ClientError` raised before any response exists (in the
source this is raised by the `async with session.request(...)` header itself). -/
inductive NetResult where
  | resp (r : NetResp)
  | connError
  deriving Repr, DecidableEq

/-- JSON payload dictionaries built by the source (auth payloads, MFA
challenge payloads).  `refresh_token` is doubly optional because
`refresh_access_token` can put Python `None` into the dict. -/
structure AuthPayload where
  grant_type : Option String := none
  username : Option String := none
  password : Option String := none
  client_id : Option String := none
  device_id : Option String := none
  app_version : Option String := none
  scope : Option String := none
  refresh_token : Option (Option String) := none
  mfa_token : Option String := none
  oob_code : Option String := none
  challenge_type : Option String := none
  deriving Repr, DecidableEq

/-- The headers request injects (api.py lines 278-283). -/
structure Headers where
  authorization : Option String := none
  contentType : Option String := none
  host : Option String := none
  userAgent : Option String := none
  deriving Repr, DecidableEq

/-- The `**kwargs` of `request`: optional headers dict, optional `json=` body,
optional `params=`. -/
structure Kwargs where
  headers : Option Headers := none
  json : Option AuthPayload := none
  params : Option (List (String × String)) := none
  deriving Repr, DecidableEq

/-- The mutable fields of the `API` object (api.py lines 69-80), plus a
logical clock `now` standing for `datetime.now()` (constant during a run),
plus two ghost fields recording the issue instant and declared lifetime at
the moment lines 222-225 store a token (they do not influence behavior). -/
structure SessionState where
  access_token : Option String := none
  access_token_expire : Option Int := none
  actively_refreshing : Bool := false
  refresh_token : Option String := none
  email : Option String := none
  user_id : Option Int := none
  now : Int := 0
  issued_at : Option Int := none
  issued_lifetime : Option Int := none
  deriving Repr, DecidableEq

/-- Immutable configuration of the session object: client id and whether an
external `aiohttp` session was supplied and, if so, whether it is closed. -/
structure Config where
  client_id : String := "cid"
  hasSession : Bool := false
  sessionClosed : Bool := false
  deriving Repr, DecidableEq

/-- Derived `CLIENT_ID_TEMPLATE.format(client_id)` (api.py line 35). -/
def Config.client_id_string (cfg : Config) : String :=
  cfg.client_id ++ ".WebApp.simplisafe.com"

/-- Derived `DEVICE_ID_TEMPLATE.format(device_id, client_id)`
(api.py lines 36-38, 144-146). -/
def deviceIdString (deviceId clientId : String) : String :=
  "WebApp; useragent=\"Safari 13.1 (SS-ID: " ++ deviceId ++
  ") / macOS 10.15.6\"; uuid=\"" ++ clientId ++ "\"; id=\"" ++ deviceId ++ "\""

/-- Observable actions of a run. `httpCall` records the network send with the
kwargs after header injection; pool events track the locally created
`ClientSession`; `refreshStart` marks the pre-flight guard-set-and-refresh of
api.py lines 275-276; `wsInit` is the websocket collaborator call; `skipWarn`
is the logged skip in `get_systems`. -/
inductive Event where
  | httpCall (method endpoint : String) (kw : Kwargs)
  | poolCreated
  | poolClosed
  | refreshStart (rt : Option String)
  | wsInit (token : String) (uid : Int)
  | skipWarn (sid : Int)
  deriving Repr, DecidableEq

/-- The world a run threads through: session state, the network oracle (the
`i`-th exchange of the run yields `net i`), the next exchange index, and the
event log. -/
structure World where
  st : SessionState := {}
  net : Nat → NetResult := fun _ => NetResult.connError
  ix : Nat := 0
  log : List Event := []

/-- Append an event. -/
def World.emit (w : World) (e : Event) : World := { w with log := w.log ++ [e] }

/-- Update the session state. -/
def World.withSt (w : World) (f : SessionState → SessionState) : World :=
  { w with st := f w.st }

@[simp] lemma emit_st (w : World) (e : Event) : (w.emit e).st = w.st := rfl

@[simp] lemma emit_net (w : World) (e : Event) : (w.emit e).net = w.net := rfl

@[simp] lemma emit_ix (w : World) (e : Event) : (w.emit e).ix = w.ix := rfl

@[simp] lemma emit_log (w : World) (e : Event) : (w.emit e).log = w.log ++ [e] := rfl

@[simp] lemma withSt_st (w : World) (f : SessionState → SessionState) :
    (w.withSt f).st = f w.st := rfl

@[simp] lemma withSt_net (w : World) (f : SessionState → SessionState) :
    (w.withSt f).net = w.net := rfl

@[simp] lemma withSt_ix (w : World) (f : SessionState → SessionState) :
    (w.withSt f).ix = w.ix := rfl

@[simp] lemma withSt_log (w : World) (f : SessionState → SessionState) :
    (w.withSt f).log = w.log := rfl

/-- Python exceptions the engine can surface, plus the two artifacts of the
embedding (`outOfFuel` for exhausted recursion fuel; there is no other
artificial outcome). -/
inductive Err where
  | invalidCredentials (msg : String)
  | pendingAuthorization
  | endpointUnavailable (endpoint : String)
  | requestError (endpoint : String)
  | clientError
  | keyError (field : String)
  | outOfFuel
  deriving Repr, DecidableEq

instance {ε α : Type} [DecidableEq ε] [DecidableEq α] : DecidableEq (Except ε α)
  | .ok a, .ok b =>
    if h : a = b then .isTrue (by rw [h]) else .isFalse (by intro hh; cases hh; exact h rfl)
  | .error a, .error b =>
    if h : a = b then .isTrue (by rw [h]) else .isFalse (by intro hh; cases hh; exact h rfl)
  | .ok _, .error _ => .isFalse (by intro hh; cases hh)
  | .error _, .ok _ => .isFalse (by intro hh; cases hh)

/-- Python truthiness of an optional string (`if self._refresh_token:` is
false for both `None` and `""`). -/
def truthyS : Option String → Bool
  | none => false
  | some s => !(s == "")

/-- Decoding step of api.py lines 295-299: a JSON body, or the raw text
wrapped as an error dict when decoding fails. -/
def mkData (r : NetResp) : Body :=
  match r.body with
  | some b => b
  | none => { error := some r.text }

/-- Pre-flight refresh condition of api.py lines 266-270: an expiry is stored,
now is at or past it, and no refresh is already in progress. -/
def preflightNeeded (st : SessionState) : Bool :=
  match st.access_token_expire with
  | some e => decide (e ≤ st.now) && !st.actively_refreshing
  | none => false

/-- Header injection of api.py lines 278-283 (Authorization only when an
access token is truthy, as in `if self._access_token:`). -/
def injectHeaders (st : SessionState) (kw : Kwargs) : Kwargs :=
  let hs := kw.headers.getD {}
  let hs := if truthyS st.access_token then
      { hs with authorization := some ("Bearer " ++ st.access_token.getD "") }
    else hs
  { kw with headers := some { hs with
      contentType := some "application/json; charset=utf-8",
      host := some API_URL_HOSTNAME,
      userAgent := some DEFAULT_USER_AGENT } }

/-- Pool selection of api.py lines 285-290: reuse the injected session when
present and open, else create a local pool for this call. -/
def openPool (useRunning : Bool) (w : World) : World :=
  if useRunning then w else w.emit .poolCreated

/-- The `finally` of api.py lines 331-333: close the pool only if it was
locally created for this call. -/
def closePool (useRunning : Bool) (w : World) : World :=
  if useRunning then w else w.emit .poolClosed

/-! ## The request/auth engine

The four mutually recursive activities are written as non-recursive step
functions over explicit continuations, tied together by a fuel-indexed
`engine` (structural recursion on the fuel, so concrete runs evaluate). -/

/-- Operation selector for the engine. `reqCore` is the part of `request`
after the pre-flight check (header injection, pool, send, classification). -/
inductive Op where
  | req (method endpoint : String) (kw : Kwargs)
  | reqCore (method endpoint : String) (kw : Kwargs)
  | auth (payload : AuthPayload)
  | refresh (rt : Option String)

/-- Pre-flight of `request` (api.py lines 266-276): if needed, set the guard,
call the refresh routine with the current refresh token, propagate its
failure, else continue with the core. -/
def preflightStep (doRefresh : Option String → World → Except Err Body × World)
    (doCore : World → Except Err Body × World) (w : World) :
    Except Err Body × World :=
  if preflightNeeded w.st then
    let rt := w.st.refresh_token
    let w1 := (w.withSt fun st => { st with actively_refreshing := true }).emit
      (.refreshStart rt)
    match doRefresh rt w1 with
    | (.error e, w2) => (.error e, w2)
    | (.ok _, w2) => doCore w2
  else doCore w

/-- Core of `request` (api.py lines 278-335): header injection, pool
selection, one network exchange, decode, classification.  `retry` re-issues
the same method/endpoint (the mutated kwargs are passed through, as in
`return await self.request(method, endpoint, **kwargs)`).  The source's
status tests are substring checks on the exception text (`"401" in
str(err)`); since `aiohttp` renders the status first, they are embedded as
equality on the status code.  `raise_for_status` raises exactly for
statuses >= 400, so that is the failure/success boundary.  A
connection-level failure escapes before the `try`/`finally`, so the locally
created pool is not closed on that path. -/
def coreStep (cfg : Config) (method endpoint : String)
    (retry : Kwargs → World → Except Err Body × World)
    (kw : Kwargs) (w : World) : Except Err Body × World :=
  let kw1 := injectHeaders w.st kw
  let useRunning := cfg.hasSession && !cfg.sessionClosed
  let w1 := openPool useRunning w
  let w2 := w1.emit (.httpCall method endpoint kw1)
  let nr := w2.net w2.ix
  let w3 := { w2 with ix := w2.ix + 1 }
  match nr with
  | .connError => (.error .clientError, w3)
  | .resp r =>
    let data := mkData r
    if r.status < 400 then
      (.ok data, closePool useRunning w3)
    else if data.error == some "mfa_required" then
      (.ok data, closePool useRunning w3)
    else if data.typ == some "NoRemoteManagement" then
      (.error (.endpointUnavailable endpoint), closePool useRunning w3)
    else if r.status == 401 then
      if w3.st.actively_refreshing then
        (.error (.invalidCredentials "Repeated 401s despite refreshing access token"),
         closePool useRunning w3)
      else if truthyS w3.st.refresh_token then
        let w4 := w3.withSt fun st => { st with access_token_expire := some st.now }
        match retry kw1 w4 with
        | (.error e, w5) => (.error e, closePool useRunning w5)
        | (.ok b, w5) => (.ok b, closePool useRunning w5)
      else
        (.error (.invalidCredentials "Invalid username/password"), closePool useRunning w3)
    else if r.status == 403 then
      (.error (.invalidCredentials "Invalid username/password"), closePool useRunning w3)
    else
      (.error (.requestError endpoint), closePool useRunning w3)

/-- Body of `authenticate` (api.py lines 188-231): token exchange; on an
`mfa_token` response run the challenge and second exchange and raise
Pending-Authorization (any raise from those two calls propagates instead);
otherwise store token, expiry = now + expires_in - 60, refresh token (in the
source's assignment order), then authCheck, store user id, init websocket. -/
def authStep (cfg : Config)
    (call : String → String → Kwargs → World → Except Err Body × World)
    (payload : AuthPayload) (w : World) : Except Err Body × World :=
  match call "post" "api/token" { json := some payload } w with
  | (.error e, w1) => (.error e, w1)
  | (.ok token_resp, w1) =>
    match token_resp.mfa_token with
    | some mfa =>
      match call "post" "api/mfa/challenge"
          { json := some { challenge_type := some "oob",
                           client_id := some cfg.client_id_string,
                           mfa_token := some mfa } } w1 with
      | (.error e, w2) => (.error e, w2)
      | (.ok challenge_resp, w2) =>
        match challenge_resp.oob_code with
        | none => (.error (.keyError "oob_code"), w2)
        | some oob =>
          match call "post" "api/token"
              { json := some { client_id := some cfg.client_id_string,
                               grant_type := some API_URL_MFA_OOB,
                               mfa_token := some mfa,
                               oob_code := some oob,
                               scope := some "offline_access" } } w2 with
          | (.error e, w3) => (.error e, w3)
          | (.ok _, w3) => (.error .pendingAuthorization, w3)
    | none =>
      match token_resp.access_token with
      | none => (.error (.keyError "access_token"), w1)
      | some tok =>
        let w2 := w1.withSt fun st => { st with access_token := some tok }
        match token_resp.expires_in with
        | none => (.error (.keyError "expires_in"), w2)
        | some life =>
          let w3 := w2.withSt fun st => { st with
            access_token_expire := some (st.now + life - 60),
            issued_at := some st.now, issued_lifetime := some life }
          match token_resp.refresh_token with
          | none => (.error (.keyError "refresh_token"), w3)
          | some rt =>
            let w4 := w3.withSt fun st => { st with refresh_token := some rt }
            match call "get" "api/authCheck" {} w4 with
            | (.error e, w5) => (.error e, w5)
            | (.ok auth_check_resp, w5) =>
              match auth_check_resp.userId with
              | none => (.error (.keyError "userId"), w5)
              | some uid =>
                let w6 := w5.withSt fun st => { st with user_id := some uid }
                (.ok {}, w6.emit (.wsInit (w6.st.access_token.getD "") uid))

/-- Body of `refresh_access_token` (api.py lines 337-351): authenticate with a
refresh-grant payload; the guard is cleared only after `authenticate`
returns — there is no `try`/`finally`, so a raise leaves the guard as it
was. -/
def refreshStep (cfg : Config)
    (doAuth : AuthPayload → World → Except Err Body × World)
    (rt : Option String) (w : World) : Except Err Body × World :=
  match doAuth { grant_type := some "refresh_token",
                 client_id := some cfg.client_id,
                 refresh_token := some rt } w with
  | (.error e, w1) => (.error e, w1)
  | (.ok b, w1) => (.ok b, w1.withSt fun st => { st with actively_refreshing := false })

/-- Fueled interpreter tying the step functions together. -/
def engine : Nat → Config → Op → World → Except Err Body × World
  | 0, _, _, w => (.error .outOfFuel, w)
  | n + 1, cfg, .req method endpoint kw, w =>
      preflightStep (fun rt w1 => engine n cfg (.refresh rt) w1)
        (fun w1 => engine n cfg (.reqCore method endpoint kw) w1) w
  | n + 1, cfg, .reqCore method endpoint kw, w =>
      coreStep cfg method endpoint
        (fun k w1 => engine n cfg (.req method endpoint k) w1) kw w
  | n + 1, cfg, .auth payload, w =>
      authStep cfg (fun m e k w1 => engine n cfg (.req m e k) w1) payload w
  | n + 1, cfg, .refresh rt, w =>
      refreshStep cfg (fun p w1 => engine n cfg (.auth p) w1) rt w

/-- Embeds `API.request` (api.py lines 262-335). -/
def request (fuel : Nat) (cfg : Config) (method endpoint : String)
    (kw : Kwargs) (w : World) : Except Err Body × World :=
  engine fuel cfg (.req method endpoint kw) w

/-- The post-pre-flight part of `API.request` (api.py lines 278-335). -/
def requestCore (fuel : Nat) (cfg : Config) (method endpoint : String)
    (kw : Kwargs) (w : World) : Except Err Body × World :=
  engine fuel cfg (.reqCore method endpoint kw) w

/-- Embeds `API.authenticate` (api.py lines 188-231). -/
def authenticate (fuel : Nat) (cfg : Config) (payload : AuthPayload)
    (w : World) : Except Err Body × World :=
  engine fuel cfg (.auth payload) w

/-- Embeds `API.refresh_access_token` (api.py lines 337-351). -/
def refresh_access_token (fuel : Nat) (cfg : Config) (rt : Option String)
    (w : World) : Except Err Body × World :=
  engine fuel cfg (.refresh rt) w

/-- Network oracle backed by a finite script; exchanges beyond the script
fail at the connection level. -/
def netOf (l : List NetResult) : Nat → NetResult :=
  fun i => l.getD i .connError

/-! ## Account data facade and login entry points -/

/-- A constructed domain object of `get_systems`.  Modelled from the spec:
the version-selected constructors `SystemV2`/`SystemV3` live outside the
evaluated core (`simplipy/system/...` is an external collaborator per the
spec's scope); a constructed object records which constructor ran and the
location payload it received, and its `update(include_system=False)` call is
an opaque collaborator operation that succeeds without touching session
state. -/
structure SystemObj where
  version : Int
  location : LocationData
  deriving Repr, DecidableEq

/-- Python `str(user_id)` where `user_id : Optional[int]`. -/
def uidString : Option Int → String
  | none => "None"
  | some n => toString n

/-- Python dict assignment `systems[sid] = system` on an insertion-ordered
dict represented as an association list. -/
def dinsert (m : List (String × SystemObj)) (k : String) (v : SystemObj) :
    List (String × SystemObj) :=
  match m with
  | [] => [(k, v)]
  | (k1, v1) :: rest => if k1 == k then (k, v) :: rest else (k1, v1) :: dinsert rest k v

/-- The subscription loop of `get_systems` (api.py lines 243-258): skip (with
a logged message) subscriptions whose `location.system` has no `version`;
look the version up in `SYSTEM_MAP` (a `KeyError` for versions other than 2
and 3); construct the domain object and register it under the top-level
`sid`. -/
def buildSystems (subs : List Subscription)
    (acc : List (String × SystemObj)) (w : World) :
    Except Err (List (String × SystemObj)) × World :=
  match subs with
  | [] => (.ok acc, w)
  | sd :: rest =>
    match sd.location.system.version with
    | none => buildSystems rest acc (w.emit (.skipWarn sd.location.sid))
    | some v =>
      if v == 2 || v == 3 then
        buildSystems rest (dinsert acc sd.sid ⟨v, sd.location⟩) w
      else
        (.error (.keyError "SYSTEM_MAP"), w)

/-- Embeds `API._get_subscription_data` (api.py lines 176-186). -/
def get_subscription_data (fuel : Nat) (cfg : Config) (w : World) :
    Except Err Body × World :=
  request fuel cfg "get" ("users/" ++ uidString w.st.user_id ++ "/subscriptions")
    { params := some [("activeOnly", "true")] } w

/-- Embeds `API.get_systems` (api.py lines 233-260). -/
def get_systems (fuel : Nat) (cfg : Config) (w : World) :
    Except Err (List (String × SystemObj)) × World :=
  match get_subscription_data fuel cfg w with
  | (.error e, w1) => (.error e, w1)
  | (.ok subscription_resp, w1) =>
    match subscription_resp.subscriptions with
    | none => (.error (.keyError "subscriptions"), w1)
    | some subs => buildSystems subs [] w1

/-- Fresh state built by `API.__init__` (api.py lines 65-81), at clock `t`. -/
def initState (t : Int) : SessionState := { now := t }

/-- Fresh world for a newly constructed session object. -/
def initWorld (t : Int) (net : Nat → NetResult) : World :=
  { st := initState t, net := net }

/-- The password-grant payload of `login_via_credentials` (api.py lines
138-150). -/
def passwordPayload (cfg : Config) (email password : String) : AuthPayload :=
  { grant_type := some "password",
    username := some email,
    password := some password,
    client_id := some cfg.client_id_string,
    device_id := some (deviceIdString (generate_device_id cfg.client_id) cfg.client_id),
    app_version := some "1.62.0",
    scope := some "offline_access" }

/-- Embeds `API.login_via_credentials` (api.py lines 114-152): construct a
fresh object, store the email, authenticate with the password grant. -/
def login_via_credentials (fuel : Nat) (cfg : Config) (email password : String)
    (t : Int) (net : Nat → NetResult) : Except Err Body × World :=
  authenticate fuel cfg (passwordPayload cfg email password)
    { initWorld t net with st := { initState t with email := some email } }

/-- Embeds `API.login_via_token` (api.py lines 154-174): construct a fresh
object and run the refresh routine on the given token. -/
def login_via_token (fuel : Nat) (cfg : Config) (rt : String)
    (t : Int) (net : Nat → NetResult) : Except Err Body × World :=
  refresh_access_token fuel cfg (some rt) (initWorld t net)

/-! ## Trace observations -/

/-- The HTTP calls of a log, as method/endpoint pairs. -/
def httpCallsOf (l : List Event) : List (String × String) :=
  l.filterMap fun e =>
    match e with
    | .httpCall m ep _ => some (m, ep)
    | _ => none

/-- Does an event create a local pool? -/
def isPoolCreated : Event → Bool
  | .poolCreated => true
  | _ => false

/-- Does an event close a local pool? -/
def isPoolClosed : Event → Bool
  | .poolClosed => true
  | _ => false

/-- Does an event mark a pre-flight refresh firing? -/
def isRefreshStart : Event → Bool
  | .refreshStart _ => true
  | _ => false

/-- The skip warnings of a log, by location sid. -/
def skipWarnsOf (l : List Event) : List Int :=
  l.filterMap fun e =>
    match e with
    | .skipWarn sid => some sid
    | _ => none

/-! ## General facts about the engine -/

@[simp] lemma closePool_st (b : Bool) (w : World) : (closePool b w).st = w.st := by
  unfold closePool; split <;> rfl

@[simp] lemma closePool_net (b : Bool) (w : World) : (closePool b w).net = w.net := by
  unfold closePool; split <;> rfl

@[simp] lemma closePool_ix (b : Bool) (w : World) : (closePool b w).ix = w.ix := by
  unfold closePool; split <;> rfl

@[simp] lemma openPool_st (b : Bool) (w : World) : (openPool b w).st = w.st := by
  unfold openPool; split <;> rfl

@[simp] lemma openPool_net (b : Bool) (w : World) : (openPool b w).net = w.net := by
  unfold openPool; split <;> rfl

@[simp] lemma openPool_ix (b : Bool) (w : World) : (openPool b w).ix = w.ix := by
  unfold openPool; split <;> rfl

/-- The engine only reads the network oracle and the clock; it never changes
them. -/
lemma engine_net_now : ∀ n cfg op w r w', engine n cfg op w = (r, w') →
    w'.net = w.net ∧ w'.st.now = w.st.now := by
  intro n
  induction n with
  | zero =>
    intro cfg op w r w' h
    simp only [engine, Prod.mk.injEq] at h
    rw [← h.2]
    exact ⟨rfl, rfl⟩
  | succ n ih =>
    intro cfg op w r w' h
    cases op with
    | req m e kw =>
      simp only [engine, preflightStep] at h
      split at h
      · split at h <;> rename_i heq
        · cases h
          have h1 := ih _ _ _ _ _ heq
          simpa using h1
        · have h1 := ih _ _ _ _ _ heq
          have h2 := ih _ _ _ _ _ h
          simp only [emit_net, withSt_net, emit_st, withSt_st] at h1
          exact ⟨h2.1.trans h1.1, h2.2.trans h1.2⟩
      · exact ih _ _ _ _ _ h
    | reqCore m e kw =>
      simp only [engine, coreStep] at h
      split at h
      · cases h; constructor <;> simp
      · split at h
        · cases h; constructor <;> simp
        · split at h
          · cases h; constructor <;> simp
          · split at h
            · cases h; constructor <;> simp
            · split at h
              · split at h
                · cases h; constructor <;> simp
                · split at h
                  · split at h <;> rename_i hret
                    all_goals cases h
                    all_goals have h1 := ih _ _ _ _ _ hret
                    all_goals simp only [withSt_net, withSt_st, emit_net, emit_st,
                      openPool_net, openPool_st] at h1
                    all_goals constructor <;> simp [h1.1, h1.2]
                  · cases h; constructor <;> simp
              · split at h
                · cases h; constructor <;> simp
                · cases h; constructor <;> simp
    | auth p =>
      simp only [engine, authStep] at h
      split at h <;> rename_i heq1
      · cases h; exact ih _ _ _ _ _ heq1
      · have h1 := ih _ _ _ _ _ heq1
        split at h
        · split at h <;> rename_i heq2
          · cases h
            have h2 := ih _ _ _ _ _ heq2
            exact ⟨h2.1.trans h1.1, h2.2.trans h1.2⟩
          · have h2 := ih _ _ _ _ _ heq2
            split at h
            · cases h
              exact ⟨h2.1.trans h1.1, h2.2.trans h1.2⟩
            · split at h <;> rename_i heq3
              all_goals cases h
              all_goals have h3 := ih _ _ _ _ _ heq3
              all_goals exact ⟨h3.1.trans (h2.1.trans h1.1), h3.2.trans (h2.2.trans h1.2)⟩
        · split at h
          · cases h; exact h1
          · split at h
            · cases h; simpa using h1
            · split at h
              · cases h; simpa using h1
              · split at h <;> rename_i heq2
                · cases h
                  have h2 := ih _ _ _ _ _ heq2
                  simp only [withSt_net, withSt_st] at h2
                  exact ⟨h2.1.trans h1.1, h2.2.trans h1.2⟩
                · have h2 := ih _ _ _ _ _ heq2
                  simp only [withSt_net, withSt_st] at h2
                  split at h
                  · cases h
                    exact ⟨h2.1.trans h1.1, h2.2.trans h1.2⟩
                  · cases h
                    constructor <;> simp [h2.1, h2.2, h1.1, h1.2]
    | refresh rt =>
      simp only [engine, refreshStep] at h
      split at h <;> rename_i heq
      · cases h; exact ih _ _ _ _ _ heq
      · cases h
        have h1 := ih _ _ _ _ _ heq
        constructor <;> simp [h1.1, h1.2]



/-- Count of pre-flight refresh firings in a log. -/
def countRS (l : List Event) : Nat := l.countP fun e => isRefreshStart e

@[simp] lemma countRS_append (l1 l2 : List Event) :
    countRS (l1 ++ l2) = countRS l1 + countRS l2 :=
  List.countP_append _ _ _

@[simp] lemma countRS_closePool_log (b : Bool) (w : World) :
    countRS (closePool b w).log = countRS w.log := by
  unfold closePool; split <;> simp [countRS, isRefreshStart]

@[simp] lemma countRS_openPool_log (b : Bool) (w : World) :
    countRS (openPool b w).log = countRS w.log := by
  unfold openPool; split <;> simp [countRS, isRefreshStart]

@[simp] lemma countRS_single_httpCall (m e : String) (kw : Kwargs) :
    countRS [Event.httpCall m e kw] = 0 := by simp [countRS, isRefreshStart]

@[simp] lemma countRS_single_wsInit (t : String) (u : Int) :
    countRS [Event.wsInit t u] = 0 := by simp [countRS, isRefreshStart]

@[simp] lemma countRS_single_refreshStart (rt : Option String) :
    countRS [Event.refreshStart rt] = 1 := by simp [countRS, isRefreshStart]

/-- A set refreshing guard blocks the pre-flight condition. -/
lemma preflightNeeded_of_guard {st : SessionState}
    (h : st.actively_refreshing = true) : preflightNeeded st = false := by
  unfold preflightNeeded
  rw [h]
  cases st.access_token_expire <;> simp

/-- Is the operation one of the three that never clear the guard? -/
def notRefreshOp : Op → Bool
  | .refresh _ => false
  | _ => true

/-- While the refreshing guard is set, `request`, its core, and `authenticate`
keep the guard set and never start another pre-flight refresh. -/
lemma engine_guard_true : ∀ n cfg op w r w', engine n cfg op w = (r, w') →
    w.st.actively_refreshing = true → notRefreshOp op = true →
    w'.st.actively_refreshing = true ∧ countRS w'.log = countRS w.log := by
  intro n
  induction n with
  | zero =>
    intro cfg op w r w' h hg _
    simp only [engine, Prod.mk.injEq] at h
    rw [← h.2]
    exact ⟨hg, rfl⟩
  | succ n ih =>
    intro cfg op w r w' h hg hop
    cases op with
    | req m e kw =>
      simp only [engine, preflightStep] at h
      split at h <;> rename_i hc
      · rw [preflightNeeded_of_guard hg] at hc
        simp at hc
      · exact ih _ _ _ _ _ h hg rfl
    | reqCore m e kw =>
      simp only [engine, coreStep] at h
      split at h
      · cases h; constructor <;> simp [hg]
      · split at h
        · cases h; constructor <;> simp [hg]
        · split at h
          · cases h; constructor <;> simp [hg]
          · split at h
            · cases h; constructor <;> simp [hg]
            · split at h
              · split at h
                · cases h; constructor <;> simp [hg]
                · rename_i hng
                  simp [hg] at hng
              · split at h
                · cases h; constructor <;> simp [hg]
                · cases h; constructor <;> simp [hg]
    | auth p =>
      simp only [engine, authStep] at h
      split at h <;> rename_i heq1
      · cases h
        exact ih _ _ _ _ _ heq1 hg rfl
      · have h1 := ih _ _ _ _ _ heq1 hg rfl
        split at h
        · split at h <;> rename_i heq2
          · cases h
            have h2 := ih _ _ _ _ _ heq2 h1.1 rfl
            exact ⟨h2.1, h2.2.trans h1.2⟩
          · have h2 := ih _ _ _ _ _ heq2 h1.1 rfl
            split at h
            · cases h
              exact ⟨h2.1, h2.2.trans h1.2⟩
            · split at h <;> rename_i heq3
              all_goals cases h
              all_goals have h3 := ih _ _ _ _ _ heq3 h2.1 rfl
              all_goals exact ⟨h3.1, h3.2.trans (h2.2.trans h1.2)⟩
        · split at h
          · cases h; exact h1
          · split at h
            · cases h; simpa using h1
            · split at h
              · cases h; simpa using h1
              · split at h <;> rename_i heq2
                · cases h
                  have h2 := ih _ _ _ _ _ heq2 (by simpa using h1.1) rfl
                  simp only [withSt_st, withSt_log] at h2
                  exact ⟨by simpa using h2.1, h2.2.trans h1.2⟩
                · have h2 := ih _ _ _ _ _ heq2 (by simpa using h1.1) rfl
                  simp only [withSt_st, withSt_log] at h2
                  split at h
                  · cases h
                    exact ⟨by simpa using h2.1, h2.2.trans h1.2⟩
                  · cases h
                    refine ⟨by simpa using h2.1, ?_⟩
                    simp only [emit_log, withSt_log, countRS_append, countRS_single_wsInit]
                    simpa using h2.2.trans h1.2
    | refresh rt =>
      simp [notRefreshOp] at hop



/-- Well-formedness of a network script: any decoded body carrying an
`access_token` also carries `expires_in` (the token endpoint contract). -/
def WFnet (net : Nat → NetResult) : Prop :=
  ∀ i r b, net i = NetResult.resp r → r.body = some b →
    b.access_token.isSome → b.expires_in.isSome

/-- Credential pairing invariant: a non-null access token has a non-null
expiry stored with it. -/
def Inv (st : SessionState) : Prop :=
  st.access_token.isSome → st.access_token_expire.isSome

/-- Well-formedness of a returned body. -/
def WFBody (b : Body) : Prop := b.access_token.isSome → b.expires_in.isSome

/-- Under a well-formed network script the credential pairing invariant is
preserved by every engine operation, and every body the engine returns is
itself well-formed. -/
lemma engine_inv : ∀ n cfg op w r w', engine n cfg op w = (r, w') →
    WFnet w.net → Inv w.st → Inv w'.st ∧ (∀ b, r = .ok b → WFBody b) := by
  intro n
  induction n with
  | zero =>
    intro cfg op w r w' h hwf hinv
    simp only [engine, Prod.mk.injEq] at h
    rw [← h.2]
    exact ⟨hinv, by rw [← h.1]; intro b hb; cases hb⟩
  | succ n ih =>
    intro cfg op w r w' h hwf hinv
    cases op with
    | req m e kw =>
      simp only [engine, preflightStep] at h
      split at h
      · split at h <;> rename_i heq
        · cases h
          have h1 := ih _ _ _ _ _ heq (by simpa using hwf) (by simpa using hinv)
          exact ⟨h1.1, by intro b hb; cases hb⟩
        · have hnet := (engine_net_now n _ _ _ _ _ heq).1
          have h1 := ih _ _ _ _ _ heq (by simpa using hwf) (by simpa using hinv)
          have h2 := ih _ _ _ _ _ h (by rw [hnet]; simpa using hwf) h1.1
          exact h2
      · exact ih _ _ _ _ _ h hwf hinv
    | reqCore m e kw =>
      simp only [engine, coreStep] at h
      split at h
      · cases h
        exact ⟨by simpa using hinv, by intro b hb; cases hb⟩
      · rename_i nr rr heq
        have hresp : w.net ((openPool (cfg.hasSession && !cfg.sessionClosed) w).emit
            (Event.httpCall m e (injectHeaders w.st kw))).ix = NetResult.resp rr := by
          simpa using heq
        have hwfdata : WFBody (mkData rr) := by
          unfold mkData
          cases hb : rr.body with
          | none => intro hh; simp at hh
          | some b => exact fun hh => hwf _ _ _ hresp hb hh
        split at h
        · cases h
          exact ⟨by simpa using hinv, by intro b hb; cases hb; exact hwfdata⟩
        · split at h
          · cases h
            exact ⟨by simpa using hinv, by intro b hb; cases hb; exact hwfdata⟩
          · split at h
            · cases h
              exact ⟨by simpa using hinv, by intro b hb; cases hb⟩
            · split at h
              · split at h
                · cases h
                  exact ⟨by simpa using hinv, by intro b hb; cases hb⟩
                · split at h
                  · split at h <;> rename_i hret
                    · cases h
                      have h1 := ih _ _ _ _ _ hret (by simpa using hwf)
                        (by intro _; simp)
                      exact ⟨by simpa using h1.1, by intro b hb; cases hb⟩
                    · cases h
                      have h1 := ih _ _ _ _ _ hret (by simpa using hwf)
                        (by intro _; simp)
                      exact ⟨by simpa using h1.1, fun b hb => h1.2 b (by rw [← hb])⟩
                  · cases h
                    exact ⟨by simpa using hinv, by intro b hb; cases hb⟩
              · split at h
                · cases h
                  exact ⟨by simpa using hinv, by intro b hb; cases hb⟩
                · cases h
                  exact ⟨by simpa using hinv, by intro b hb; cases hb⟩
    | auth p =>
      simp only [engine, authStep] at h
      split at h <;> rename_i heq1
      · cases h
        have h1 := ih _ _ _ _ _ heq1 hwf hinv
        exact ⟨h1.1, by intro b hb; cases hb⟩
      · have hnet1 := (engine_net_now n _ _ _ _ _ heq1).1
        have h1 := ih _ _ _ _ _ heq1 hwf hinv
        rename_i token_resp w1
        have hwf1 : WFnet w1.net := by rw [hnet1]; exact hwf
        split at h
        · split at h <;> rename_i heq2
          · cases h
            have h2 := ih _ _ _ _ _ heq2 hwf1 h1.1
            exact ⟨h2.1, by intro b hb; cases hb⟩
          · rename_i challenge_resp w2
            have hnet2 := (engine_net_now n _ _ _ _ _ heq2).1
            have h2 := ih _ _ _ _ _ heq2 hwf1 h1.1
            have hwf2 : WFnet w2.net := by rw [hnet2]; exact hwf1
            split at h
            · cases h
              exact ⟨h2.1, by intro b hb; cases hb⟩
            · split at h <;> rename_i heq3
              all_goals
                have h3 := ih _ _ _ _ _ heq3 hwf2 h2.1
              · cases h
                exact ⟨h3.1, by intro b hb; cases hb⟩
              · cases h
                exact ⟨h3.1, by intro b hb; cases hb⟩
        · rename_i hnomfa
          split at h <;> rename_i htok
          · cases h
            exact ⟨h1.1, by intro b hb; cases hb⟩
          · rename_i tok
            have hwfb : WFBody token_resp := h1.2 token_resp rfl
            split at h <;> rename_i hexp
            · exfalso
              have : token_resp.expires_in.isSome := hwfb (by rw [htok]; rfl)
              rw [hexp] at this
              simp at this
            · rename_i life
              split at h <;> rename_i hrt
              · cases h
                refine ⟨?_, by intro b hb; cases hb⟩
                intro _
                simp
              · rename_i rt
                split at h <;> rename_i heq4
                · cases h
                  have h4 := ih _ _ _ _ _ heq4 (by simpa using hwf1)
                    (by intro _; simp)
                  exact ⟨h4.1, by intro b hb; cases hb⟩
                · rename_i auth_check_resp w5
                  have h4 := ih _ _ _ _ _ heq4 (by simpa using hwf1)
                    (by intro _; simp)
                  split at h
                  · cases h
                    exact ⟨h4.1, by intro b hb; cases hb⟩
                  · cases h
                    refine ⟨by simpa using h4.1, by intro b hb; cases hb; intro hh; simp at hh⟩
    | refresh rt =>
      simp only [engine, refreshStep] at h
      split at h <;> rename_i heq
      · cases h
        have h1 := ih _ _ _ _ _ heq hwf hinv
        exact ⟨h1.1, by intro b hb; cases hb⟩
      · cases h
        have h1 := ih _ _ _ _ _ heq hwf hinv
        exact ⟨by simpa using h1.1, fun b hb => h1.2 b (by rw [← hb])⟩



/-- Count of local pool creations in a log. -/
def countPC (l : List Event) : Nat := l.countP fun e => isPoolCreated e

/-- Count of local pool closings in a log. -/
def countPX (l : List Event) : Nat := l.countP fun e => isPoolClosed e

@[simp] lemma countPC_append (l1 l2 : List Event) :
    countPC (l1 ++ l2) = countPC l1 + countPC l2 := List.countP_append _ _ _

@[simp] lemma countPX_append (l1 l2 : List Event) :
    countPX (l1 ++ l2) = countPX l1 + countPX l2 := List.countP_append _ _ _

@[simp] lemma countPC_openPool (b : Bool) (w : World) :
    countPC (openPool b w).log = countPC w.log + (if b then 0 else 1) := by
  unfold openPool; split <;> simp [countPC, isPoolCreated]

@[simp] lemma countPX_openPool (b : Bool) (w : World) :
    countPX (openPool b w).log = countPX w.log := by
  unfold openPool; split <;> simp [countPX, isPoolClosed]

@[simp] lemma countPC_closePool (b : Bool) (w : World) :
    countPC (closePool b w).log = countPC w.log := by
  unfold closePool; split <;> simp [countPC, isPoolCreated]

@[simp] lemma countPX_closePool (b : Bool) (w : World) :
    countPX (closePool b w).log = countPX w.log + (if b then 0 else 1) := by
  unfold closePool; split <;> simp [countPX, isPoolClosed]

@[simp] lemma countPC_single_httpCall (m e : String) (kw : Kwargs) :
    countPC [Event.httpCall m e kw] = 0 := by simp [countPC, isPoolCreated]

@[simp] lemma countPX_single_httpCall (m e : String) (kw : Kwargs) :
    countPX [Event.httpCall m e kw] = 0 := by simp [countPX, isPoolClosed]

@[simp] lemma countPC_single_wsInit (t : String) (u : Int) :
    countPC [Event.wsInit t u] = 0 := by simp [countPC, isPoolCreated]

@[simp] lemma countPX_single_wsInit (t : String) (u : Int) :
    countPX [Event.wsInit t u] = 0 := by simp [countPX, isPoolClosed]

@[simp] lemma countPC_single_refreshStart (rt : Option String) :
    countPC [Event.refreshStart rt] = 0 := by simp [countPC, isPoolCreated]

@[simp] lemma countPX_single_refreshStart (rt : Option String) :
    countPX [Event.refreshStart rt] = 0 := by simp [countPX, isPoolClosed]

/-- On any run in which every network exchange yields a response (no
connection-level raise), local pool creations and closings stay balanced. -/
lemma engine_pool_balance : ∀ n cfg op w r w', engine n cfg op w = (r, w') →
    (∀ i, w.net i ≠ NetResult.connError) →
    countPC w'.log + countPX w.log = countPX w'.log + countPC w.log := by
  intro n
  induction n with
  | zero =>
    intro cfg op w r w' h _
    simp only [engine, Prod.mk.injEq] at h
    rw [← h.2]
    omega
  | succ n ih =>
    intro cfg op w r w' h hnc
    cases op with
    | req m e kw =>
      simp only [engine, preflightStep] at h
      split at h
      · split at h <;> rename_i heq
        · cases h
          have h1 := ih _ _ _ _ _ heq (by simpa using hnc)
          simp only [emit_log, withSt_log, countPC_append, countPX_append,
            countPC_single_refreshStart, countPX_single_refreshStart] at h1
          omega
        · rename_i w2
          have hnet := (engine_net_now n _ _ _ _ _ heq).1
          have h1 := ih _ _ _ _ _ heq (by simpa using hnc)
          have h2 := ih _ _ _ _ _ h (by rw [hnet]; simpa using hnc)
          simp only [emit_log, withSt_log, countPC_append, countPX_append,
            countPC_single_refreshStart, countPX_single_refreshStart] at h1
          omega
      · exact ih _ _ _ _ _ h hnc
    | reqCore m e kw =>
      simp only [engine, coreStep] at h
      split at h
      · rename_i heq
        exfalso
        exact hnc _ (by simpa using heq)
      · split at h
        · cases h; simp; omega
        · split at h
          · cases h; simp; omega
          · split at h
            · cases h; simp; omega
            · split at h
              · split at h
                · cases h; simp; omega
                · split at h
                  · split at h <;> rename_i hret
                    all_goals cases h
                    all_goals have h1 := ih _ _ _ _ _ hret (by simpa using hnc)
                    all_goals simp only [emit_log, withSt_log, openPool_st, emit_st,
                      countPC_append, countPX_append, countPC_openPool, countPX_openPool,
                      countPC_single_httpCall, countPX_single_httpCall,
                      countPC_closePool, countPX_closePool] at h1 ⊢
                    all_goals simp only [Bool.and_eq_true, Bool.not_eq_true'] at h1 ⊢
                    all_goals omega
                  · cases h; simp; omega
              · split at h
                · cases h; simp; omega
                · cases h; simp; omega
    | auth p =>
      simp only [engine, authStep] at h
      split at h <;> rename_i heq1
      · cases h
        exact ih _ _ _ _ _ heq1 hnc
      · rename_i token_resp w1
        have hnet1 := (engine_net_now n _ _ _ _ _ heq1).1
        have h1 := ih _ _ _ _ _ heq1 hnc
        have hnc1 : ∀ i, w1.net i ≠ NetResult.connError := by rw [hnet1]; exact hnc
        split at h
        · split at h <;> rename_i heq2
          · cases h
            have h2 := ih _ _ _ _ _ heq2 hnc1
            omega
          · rename_i challenge_resp w2
            have hnet2 := (engine_net_now n _ _ _ _ _ heq2).1
            have h2 := ih _ _ _ _ _ heq2 hnc1
            have hnc2 : ∀ i, w2.net i ≠ NetResult.connError := by rw [hnet2]; exact hnc1
            split at h
            · cases h; omega
            · split at h <;> rename_i heq3
              all_goals cases h
              all_goals have h3 := ih _ _ _ _ _ heq3 hnc2
              all_goals omega
        · split at h
          · cases h; omega
          · split at h
            · cases h; simpa using h1
            · split at h
              · cases h; simpa using h1
              · split at h <;> rename_i heq4
                · cases h
                  have h4 := ih _ _ _ _ _ heq4 (by simpa [hnet1] using hnc)
                  simp only [withSt_log] at h4
                  omega
                · rename_i auth_check_resp w5
                  have h4 := ih _ _ _ _ _ heq4 (by simpa [hnet1] using hnc)
                  simp only [withSt_log] at h4
                  split at h
                  · cases h; omega
                  · cases h
                    simp only [emit_log, withSt_log, countPC_append, countPX_append,
                      countPC_single_wsInit, countPX_single_wsInit]
                    omega
    | refresh rt =>
      simp only [engine, refreshStep] at h
      split at h <;> rename_i heq
      · cases h
        exact ih _ _ _ _ _ heq hnc
      · cases h
        have h1 := ih _ _ _ _ _ heq hnc
        simpa using h1

/-- When an external open session is injected, the engine never creates nor
closes any pool. -/
lemma engine_pool_external : ∀ n cfg op w r w', engine n cfg op w = (r, w') →
    (cfg.hasSession && !cfg.sessionClosed) = true →
    countPC w'.log = countPC w.log ∧ countPX w'.log = countPX w.log := by
  intro n
  induction n with
  | zero =>
    intro cfg op w r w' h _
    simp only [engine, Prod.mk.injEq] at h
    rw [← h.2]
    exact ⟨rfl, rfl⟩
  | succ n ih =>
    intro cfg op w r w' h hu
    cases op with
    | req m e kw =>
      simp only [engine, preflightStep] at h
      split at h
      · split at h <;> rename_i heq
        · cases h
          have h1 := ih _ _ _ _ _ heq hu
          simpa using h1
        · have h1 := ih _ _ _ _ _ heq hu
          have h2 := ih _ _ _ _ _ h hu
          simp only [emit_log, withSt_log, countPC_append, countPX_append,
            countPC_single_refreshStart, countPX_single_refreshStart] at h1
          omega
      · exact ih _ _ _ _ _ h hu
    | reqCore m e kw =>
      simp only [engine, coreStep, hu] at h
      split at h
      · cases h; simp [closePool, openPool]
      · split at h
        · cases h; constructor <;> simp [closePool, openPool]
        · split at h
          · cases h; constructor <;> simp [closePool, openPool]
          · split at h
            · cases h; constructor <;> simp [closePool, openPool]
            · split at h
              · split at h
                · cases h; constructor <;> simp [closePool, openPool]
                · split at h
                  · split at h <;> rename_i hret
                    all_goals cases h
                    all_goals have h1 := ih _ _ _ _ _ hret hu
                    all_goals simp only [emit_log, withSt_log, countPC_append,
                      countPX_append, countPC_openPool, countPX_openPool,
                      countPC_single_httpCall, countPX_single_httpCall,
                      openPool, closePool] at h1 ⊢
                    all_goals simp at h1 ⊢
                    all_goals omega
                  · cases h; constructor <;> simp [closePool, openPool]
              · split at h
                · cases h; constructor <;> simp [closePool, openPool]
                · cases h; constructor <;> simp [closePool, openPool]
    | auth p =>
      simp only [engine, authStep] at h
      split at h <;> rename_i heq1
      · cases h
        exact ih _ _ _ _ _ heq1 hu
      · have h1 := ih _ _ _ _ _ heq1 hu
        split at h
        · split at h <;> rename_i heq2
          · cases h
            have h2 := ih _ _ _ _ _ heq2 hu
            omega
          · have h2 := ih _ _ _ _ _ heq2 hu
            split at h
            · cases h; omega
            · split at h <;> rename_i heq3
              all_goals cases h
              all_goals have h3 := ih _ _ _ _ _ heq3 hu
              all_goals omega
        · split at h
          · cases h; omega
          · split at h
            · cases h; simpa using h1
            · split at h
              · cases h; simpa using h1
              · split at h <;> rename_i heq4
                · cases h
                  have h4 := ih _ _ _ _ _ heq4 hu
                  simp only [withSt_log] at h4
                  omega
                · have h4 := ih _ _ _ _ _ heq4 hu
                  simp only [withSt_log] at h4
                  split at h
                  · cases h; omega
                  · cases h
                    simp only [emit_log, withSt_log, countPC_append, countPX_append,
                      countPC_single_wsInit, countPX_single_wsInit]
                    omega
    | refresh rt =>
      simp only [engine, refreshStep] at h
      split at h <;> rename_i heq
      · cases h
        exact ih _ _ _ _ _ heq hu
      · cases h
        have h1 := ih _ _ _ _ _ heq hu
        simpa using h1



/-- An unset expiry blocks the pre-flight condition. -/
lemma preflightNeeded_none {st : SessionState}
    (h : st.access_token_expire = none) : preflightNeeded st = false := by
  unfold preflightNeeded
  rw [h]

/-- Is the operation a request (full or core)? -/
def isReqOp : Op → Bool
  | .req _ _ _ => true
  | .reqCore _ _ _ => true
  | _ => false

/-- A request issued with no stored expiry and no refresh token can never
touch the credential fields: the pre-flight cannot fire and the 401 retry
path cannot be taken. -/
lemma engine_cred_frozen : ∀ n cfg op w r w', engine n cfg op w = (r, w') →
    isReqOp op = true →
    w.st.access_token_expire = none → w.st.refresh_token = none →
    w'.st.access_token = w.st.access_token ∧
    w'.st.access_token_expire = none ∧ w'.st.refresh_token = none := by
  intro n
  induction n with
  | zero =>
    intro cfg op w r w' h _ he hr
    simp only [engine, Prod.mk.injEq] at h
    rw [← h.2]
    exact ⟨rfl, he, hr⟩
  | succ n ih =>
    intro cfg op w r w' h hop he hr
    cases op with
    | req m e kw =>
      simp only [engine, preflightStep] at h
      split at h <;> rename_i hc
      · rw [preflightNeeded_none he] at hc
        simp at hc
      · exact ih _ _ _ _ _ h rfl he hr
    | reqCore m e kw =>
      simp only [engine, coreStep] at h
      split at h
      · cases h; exact ⟨by simp, by simpa using he, by simpa using hr⟩
      · split at h
        · cases h; exact ⟨by simp, by simpa using he, by simpa using hr⟩
        · split at h
          · cases h; exact ⟨by simp, by simpa using he, by simpa using hr⟩
          · split at h
            · cases h; exact ⟨by simp, by simpa using he, by simpa using hr⟩
            · split at h
              · split at h
                · cases h; exact ⟨by simp, by simpa using he, by simpa using hr⟩
                · split at h <;> rename_i htr
                  · exfalso
                    have htr2 : truthyS w.st.refresh_token = true := by simpa using htr
                    rw [hr] at htr2
                    simp [truthyS] at htr2
                  · cases h; exact ⟨by simp, by simpa using he, by simpa using hr⟩
              · split at h
                · cases h; exact ⟨by simp, by simpa using he, by simpa using hr⟩
                · cases h; exact ⟨by simp, by simpa using he, by simpa using hr⟩
    | auth p => simp [isReqOp] at hop
    | refresh rt => simp [isReqOp] at hop



/-- The subscription loop never touches session state or the oracle. -/
lemma buildSystems_st_net (subs : List Subscription)
    (acc : List (String × SystemObj)) (w : World) :
    (buildSystems subs acc w).2.st = w.st ∧ (buildSystems subs acc w).2.net = w.net := by
  induction subs generalizing acc w with
  | nil => exact ⟨rfl, rfl⟩
  | cons sd rest ih =>
    simp only [buildSystems]
    split
    · simpa using ih acc (w.emit (Event.skipWarn sd.location.sid))
    · split
      · exact ih _ w
      · exact ⟨rfl, rfl⟩

/-- `get_systems` preserves the credential pairing invariant and the oracle. -/
lemma get_systems_inv {fuel cfg w r w'} (h : get_systems fuel cfg w = (r, w'))
    (hwf : WFnet w.net) (hinv : Inv w.st) : Inv w'.st ∧ w'.net = w.net := by
  simp only [get_systems, get_subscription_data, request] at h
  split at h <;> rename_i heq
  · cases h
    have h1 := engine_inv _ _ _ _ _ _ heq hwf hinv
    have h2 := engine_net_now _ _ _ _ _ _ heq
    exact ⟨h1.1, h2.1⟩
  · have h1 := engine_inv _ _ _ _ _ _ heq hwf hinv
    have h2 := engine_net_now _ _ _ _ _ _ heq
    split at h
    · cases h
      exact ⟨h1.1, h2.1⟩
    · have h4 := congrArg Prod.snd h
      simp only at h4
      rw [← h4]
      constructor
      · rw [(buildSystems_st_net _ _ _).1]
        exact h1.1
      · rw [(buildSystems_st_net _ _ _).2]
        exact h2.1

/-- Worlds reachable through the public operations: construction, the two
login entry points, `authenticate`, `refresh_access_token`, `request`, and
`get_systems`, with arbitrary arguments and network behavior. -/
inductive Reachable : World → Prop where
  | init (t : Int) (net : Nat → NetResult) (email : Option String) :
      Reachable { st := { initState t with email := email }, net := net }
  | step_request (w : World) (hw : Reachable w) (fuel : Nat) (cfg : Config)
      (m e : String) (kw : Kwargs) : Reachable (request fuel cfg m e kw w).2
  | step_authenticate (w : World) (hw : Reachable w) (fuel : Nat) (cfg : Config)
      (p : AuthPayload) : Reachable (authenticate fuel cfg p w).2
  | step_refresh (w : World) (hw : Reachable w) (fuel : Nat) (cfg : Config)
      (rt : Option String) : Reachable (refresh_access_token fuel cfg rt w).2
  | step_get_systems (w : World) (hw : Reachable w) (fuel : Nat) (cfg : Config) :
      Reachable (get_systems fuel cfg w).2
  | login_creds (fuel : Nat) (cfg : Config) (email password : String)
      (t : Int) (net : Nat → NetResult) :
      Reachable (login_via_credentials fuel cfg email password t net).2
  | login_token (fuel : Nat) (cfg : Config) (rt : String)
      (t : Int) (net : Nat → NetResult) :
      Reachable (login_via_token fuel cfg rt t net).2

/-- Worlds reachable through the public operations when every network script
in play is well formed (token responses carrying `access_token` also carry
`expires_in`). -/
inductive ReachableWF : World → Prop where
  | init (t : Int) (net : Nat → NetResult) (email : Option String)
      (hwf : WFnet net) :
      ReachableWF { st := { initState t with email := email }, net := net }
  | step_request (w : World) (hw : ReachableWF w) (fuel : Nat) (cfg : Config)
      (m e : String) (kw : Kwargs) : ReachableWF (request fuel cfg m e kw w).2
  | step_authenticate (w : World) (hw : ReachableWF w) (fuel : Nat) (cfg : Config)
      (p : AuthPayload) : ReachableWF (authenticate fuel cfg p w).2
  | step_refresh (w : World) (hw : ReachableWF w) (fuel : Nat) (cfg : Config)
      (rt : Option String) : ReachableWF (refresh_access_token fuel cfg rt w).2
  | step_get_systems (w : World) (hw : ReachableWF w) (fuel : Nat) (cfg : Config) :
      ReachableWF (get_systems fuel cfg w).2
  | login_creds (fuel : Nat) (cfg : Config) (email password : String)
      (t : Int) (net : Nat → NetResult) (hwf : WFnet net) :
      ReachableWF (login_via_credentials fuel cfg email password t net).2
  | login_token (fuel : Nat) (cfg : Config) (rt : String)
      (t : Int) (net : Nat → NetResult) (hwf : WFnet net) :
      ReachableWF (login_via_token fuel cfg rt t net).2

lemma reachableWF_wf_inv {w : World} (hw : ReachableWF w) :
    WFnet w.net ∧ Inv w.st := by
  induction hw with
  | init t net email hwf =>
    refine ⟨hwf, ?_⟩
    intro hh
    simp [initState] at hh
  | step_request w hw fuel cfg m e kw ih =>
    have h1 := engine_inv fuel cfg (Op.req m e kw) w
      (request fuel cfg m e kw w).1 (request fuel cfg m e kw w).2 rfl ih.1 ih.2
    have h2 := engine_net_now fuel cfg (Op.req m e kw) w
      (request fuel cfg m e kw w).1 (request fuel cfg m e kw w).2 rfl
    exact ⟨by rw [h2.1]; exact ih.1, h1.1⟩
  | step_authenticate w hw fuel cfg p ih =>
    have h1 := engine_inv fuel cfg (Op.auth p) w
      (authenticate fuel cfg p w).1 (authenticate fuel cfg p w).2 rfl ih.1 ih.2
    have h2 := engine_net_now fuel cfg (Op.auth p) w
      (authenticate fuel cfg p w).1 (authenticate fuel cfg p w).2 rfl
    exact ⟨by rw [h2.1]; exact ih.1, h1.1⟩
  | step_refresh w hw fuel cfg rt ih =>
    have h1 := engine_inv fuel cfg (Op.refresh rt) w
      (refresh_access_token fuel cfg rt w).1 (refresh_access_token fuel cfg rt w).2
      rfl ih.1 ih.2
    have h2 := engine_net_now fuel cfg (Op.refresh rt) w
      (refresh_access_token fuel cfg rt w).1 (refresh_access_token fuel cfg rt w).2 rfl
    exact ⟨by rw [h2.1]; exact ih.1, h1.1⟩
  | step_get_systems w hw fuel cfg ih =>
    have h1 := @get_systems_inv fuel cfg w
      (get_systems fuel cfg w).1 (get_systems fuel cfg w).2
      rfl ih.1 ih.2
    exact ⟨by rw [h1.2]; exact ih.1, h1.1⟩
  | login_creds fuel cfg email password t net hwf =>
    have hinv0 : Inv ({ initWorld t net with
        st := { initState t with email := some email } } : World).st := by
      intro hh
      simp [initState] at hh
    have h1 := engine_inv fuel cfg (Op.auth (passwordPayload cfg email password))
      ({ initWorld t net with st := { initState t with email := some email } } : World)
      (login_via_credentials fuel cfg email password t net).1
      (login_via_credentials fuel cfg email password t net).2 rfl hwf hinv0
    have h2 := engine_net_now fuel cfg (Op.auth (passwordPayload cfg email password))
      ({ initWorld t net with st := { initState t with email := some email } } : World)
      (login_via_credentials fuel cfg email password t net).1
      (login_via_credentials fuel cfg email password t net).2 rfl
    exact ⟨by rw [h2.1]; exact hwf, h1.1⟩
  | login_token fuel cfg rt t net hwf =>
    have hinv0 : Inv (initWorld t net).st := by
      intro hh
      simp [initWorld, initState] at hh
    have h1 := engine_inv fuel cfg (Op.refresh (some rt)) (initWorld t net)
      (login_via_token fuel cfg rt t net).1
      (login_via_token fuel cfg rt t net).2 rfl hwf hinv0
    have h2 := engine_net_now fuel cfg (Op.refresh (some rt)) (initWorld t net)
      (login_via_token fuel cfg rt t net).1
      (login_via_token fuel cfg rt t net).2 rfl
    exact ⟨by rw [h2.1]; exact hwf, h1.1⟩



/-- The world after header injection, pool selection and the network send:
pool event (when local), the logged call, and the consumed oracle index. -/
def afterSend (cfg : Config) (method endpoint : String) (kw1 : Kwargs) (w : World) : World :=
  let w2 := (openPool (cfg.hasSession && !cfg.sessionClosed) w).emit
    (.httpCall method endpoint kw1)
  { w2 with ix := w2.ix + 1 }

@[simp] lemma afterSend_st (cfg : Config) (m e : String) (kw1 : Kwargs) (w : World) :
    (afterSend cfg m e kw1 w).st = w.st := by
  simp [afterSend]

@[simp] lemma afterSend_net (cfg : Config) (m e : String) (kw1 : Kwargs) (w : World) :
    (afterSend cfg m e kw1 w).net = w.net := by
  simp [afterSend]

@[simp] lemma afterSend_ix (cfg : Config) (m e : String) (kw1 : Kwargs) (w : World) :
    (afterSend cfg m e kw1 w).ix = w.ix + 1 := by
  simp [afterSend]

/-- The HTTP calls of a log. -/
@[simp] lemma httpCallsOf_append (l1 l2 : List Event) :
    httpCallsOf (l1 ++ l2) = httpCallsOf l1 ++ httpCallsOf l2 :=
  List.filterMap_append _ _ _

@[simp] lemma httpCallsOf_single_httpCall (m e : String) (kw : Kwargs) :
    httpCallsOf [Event.httpCall m e kw] = [(m, e)] := rfl

@[simp] lemma httpCallsOf_single_refreshStart (rt : Option String) :
    httpCallsOf [Event.refreshStart rt] = [] := rfl

@[simp] lemma httpCallsOf_single_wsInit (t : String) (u : Int) :
    httpCallsOf [Event.wsInit t u] = [] := rfl

@[simp] lemma httpCallsOf_openPool (b : Bool) (w : World) :
    httpCallsOf (openPool b w).log = httpCallsOf w.log := by
  unfold openPool; split
  · rfl
  · simp only [emit_log, httpCallsOf_append]
    simp [httpCallsOf]

@[simp] lemma httpCallsOf_closePool (b : Bool) (w : World) :
    httpCallsOf (closePool b w).log = httpCallsOf w.log := by
  unfold closePool; split
  · rfl
  · simp only [emit_log, httpCallsOf_append]
    simp [httpCallsOf]

@[simp] lemma httpCallsOf_afterSend (cfg : Config) (m e : String) (kw1 : Kwargs) (w : World) :
    httpCallsOf (afterSend cfg m e kw1 w).log = httpCallsOf w.log ++ [(m, e)] := by
  simp [afterSend]

@[simp] lemma countRS_afterSend (cfg : Config) (m e : String) (kw1 : Kwargs) (w : World) :
    countRS (afterSend cfg m e kw1 w).log = countRS w.log := by
  simp [afterSend]

/-- Classification step, success status: the decoded data is returned and the
local pool closed. -/
lemma coreStep_ok {cfg : Config} {m e : String}
    {retry : Kwargs → World → Except Err Body × World} {kw : Kwargs} {w : World}
    {rr : NetResp} (hresp : w.net w.ix = NetResult.resp rr)
    (hst : rr.status < 400) :
    coreStep cfg m e retry kw w =
      (.ok (mkData rr),
       closePool (cfg.hasSession && !cfg.sessionClosed)
         (afterSend cfg m e (injectHeaders w.st kw) w)) := by
  simp only [coreStep, emit_net, emit_ix, openPool_net, openPool_ix, hresp, afterSend]
  simp [hst]

/-- Classification step, tolerated `mfa_required` marker on a failure status:
returned as ordinary data, not raised. -/
lemma coreStep_mfa {cfg : Config} {m e : String}
    {retry : Kwargs → World → Except Err Body × World} {kw : Kwargs} {w : World}
    {rr : NetResp} (hresp : w.net w.ix = NetResult.resp rr)
    (hst : ¬ rr.status < 400)
    (hmfa : ((mkData rr).error == some "mfa_required") = true) :
    coreStep cfg m e retry kw w =
      (.ok (mkData rr),
       closePool (cfg.hasSession && !cfg.sessionClosed)
         (afterSend cfg m e (injectHeaders w.st kw) w)) := by
  simp only [coreStep, emit_net, emit_ix, openPool_net, openPool_ix, hresp, afterSend]
  simp [hst, hmfa]

/-- Classification step, `NoRemoteManagement` marker: Endpoint-Unavailable. -/
lemma coreStep_nrm {cfg : Config} {m e : String}
    {retry : Kwargs → World → Except Err Body × World} {kw : Kwargs} {w : World}
    {rr : NetResp} (hresp : w.net w.ix = NetResult.resp rr)
    (hst : ¬ rr.status < 400)
    (hmfa : ((mkData rr).error == some "mfa_required") = false)
    (hnrm : ((mkData rr).typ == some "NoRemoteManagement") = true) :
    coreStep cfg m e retry kw w =
      (.error (.endpointUnavailable e),
       closePool (cfg.hasSession && !cfg.sessionClosed)
         (afterSend cfg m e (injectHeaders w.st kw) w)) := by
  simp only [coreStep, emit_net, emit_ix, openPool_net, openPool_ix, hresp, afterSend]
  simp [hst, hmfa, hnrm]

/-- Classification step, 401 inside an active refresh: fatal
Invalid-Credentials, no retry. -/
lemma coreStep_401_guard {cfg : Config} {m e : String}
    {retry : Kwargs → World → Except Err Body × World} {kw : Kwargs} {w : World}
    {rr : NetResp} (hresp : w.net w.ix = NetResult.resp rr)
    (hst : ¬ rr.status < 400)
    (hmfa : ((mkData rr).error == some "mfa_required") = false)
    (hnrm : ((mkData rr).typ == some "NoRemoteManagement") = false)
    (hs401 : (rr.status == 401) = true)
    (hg : w.st.actively_refreshing = true) :
    coreStep cfg m e retry kw w =
      (.error (.invalidCredentials "Repeated 401s despite refreshing access token"),
       closePool (cfg.hasSession && !cfg.sessionClosed)
         (afterSend cfg m e (injectHeaders w.st kw) w)) := by
  simp only [coreStep, emit_net, emit_ix, openPool_net, openPool_ix, hresp, afterSend]
  simp [hst, hmfa, hnrm, hs401, hg]

/-- Classification step, 401 outside a refresh with a truthy refresh token:
the stored expiry is forced to the current instant and the very same call is
re-issued (through `retry`), the local pool closing after the retry returns. -/
lemma coreStep_401_retry {cfg : Config} {m e : String}
    {retry : Kwargs → World → Except Err Body × World} {kw : Kwargs} {w : World}
    {rr : NetResp} (hresp : w.net w.ix = NetResult.resp rr)
    (hst : ¬ rr.status < 400)
    (hmfa : ((mkData rr).error == some "mfa_required") = false)
    (hnrm : ((mkData rr).typ == some "NoRemoteManagement") = false)
    (hs401 : (rr.status == 401) = true)
    (hg : w.st.actively_refreshing = false)
    (hrt : truthyS w.st.refresh_token = true)
    {res : Except Err Body} {w5 : World}
    (hret : retry (injectHeaders w.st kw)
      ((afterSend cfg m e (injectHeaders w.st kw) w).withSt fun st =>
        { st with access_token_expire := some st.now }) = (res, w5)) :
    coreStep cfg m e retry kw w =
      (res, closePool (cfg.hasSession && !cfg.sessionClosed) w5) := by
  simp only [afterSend, World.emit, World.withSt, openPool_st, openPool_net,
    openPool_ix, emit_st, emit_net, emit_ix, hg] at hret
  simp only [coreStep, emit_net, emit_ix, openPool_net, openPool_ix, hresp,
    World.emit, World.withSt]
  simp [hst, hmfa, hnrm, hs401, hg, hrt, hret]
  cases res <;> rfl

/-- Classification step, 401 with no (truthy) refresh token: fatal
Invalid-Credentials, no retry. -/
lemma coreStep_401_norefresh {cfg : Config} {m e : String}
    {retry : Kwargs → World → Except Err Body × World} {kw : Kwargs} {w : World}
    {rr : NetResp} (hresp : w.net w.ix = NetResult.resp rr)
    (hst : ¬ rr.status < 400)
    (hmfa : ((mkData rr).error == some "mfa_required") = false)
    (hnrm : ((mkData rr).typ == some "NoRemoteManagement") = false)
    (hs401 : (rr.status == 401) = true)
    (hg : w.st.actively_refreshing = false)
    (hrt : truthyS w.st.refresh_token = false) :
    coreStep cfg m e retry kw w =
      (.error (.invalidCredentials "Invalid username/password"),
       closePool (cfg.hasSession && !cfg.sessionClosed)
         (afterSend cfg m e (injectHeaders w.st kw) w)) := by
  simp only [coreStep, emit_net, emit_ix, openPool_net, openPool_ix, hresp, afterSend]
  simp [hst, hmfa, hnrm, hs401, hg, hrt]

/-- Classification step, 403: Invalid-Credentials. -/
lemma coreStep_403 {cfg : Config} {m e : String}
    {retry : Kwargs → World → Except Err Body × World} {kw : Kwargs} {w : World}
    {rr : NetResp} (hresp : w.net w.ix = NetResult.resp rr)
    (hst : ¬ rr.status < 400)
    (hmfa : ((mkData rr).error == some "mfa_required") = false)
    (hnrm : ((mkData rr).typ == some "NoRemoteManagement") = false)
    (hs401 : (rr.status == 401) = false)
    (hs403 : (rr.status == 403) = true) :
    coreStep cfg m e retry kw w =
      (.error (.invalidCredentials "Invalid username/password"),
       closePool (cfg.hasSession && !cfg.sessionClosed)
         (afterSend cfg m e (injectHeaders w.st kw) w)) := by
  simp only [coreStep, emit_net, emit_ix, openPool_net, openPool_ix, hresp, afterSend]
  simp [hst, hmfa, hnrm, hs401, hs403]

/-- Classification step, any other failure: generic Request-Error carrying the
endpoint. -/
lemma coreStep_other {cfg : Config} {m e : String}
    {retry : Kwargs → World → Except Err Body × World} {kw : Kwargs} {w : World}
    {rr : NetResp} (hresp : w.net w.ix = NetResult.resp rr)
    (hst : ¬ rr.status < 400)
    (hmfa : ((mkData rr).error == some "mfa_required") = false)
    (hnrm : ((mkData rr).typ == some "NoRemoteManagement") = false)
    (hs401 : (rr.status == 401) = false)
    (hs403 : (rr.status == 403) = false) :
    coreStep cfg m e retry kw w =
      (.error (.requestError e),
       closePool (cfg.hasSession && !cfg.sessionClosed)
         (afterSend cfg m e (injectHeaders w.st kw) w)) := by
  simp only [coreStep, emit_net, emit_ix, openPool_net, openPool_ix, hresp, afterSend]
  simp [hst, hmfa, hnrm, hs401, hs403]

/-- One fuel step of `request` when the pre-flight does not fire. -/
lemma request_succ_nopf {n : Nat} {cfg : Config} {m e : String} {kw : Kwargs}
    {w : World} (hpf : preflightNeeded w.st = false) :
    request (n + 1) cfg m e kw w = requestCore n cfg m e kw w := by
  simp [request, requestCore, engine, preflightStep, hpf]

/-- One fuel step of `request` when the pre-flight fires: the guard is set,
the refresh routine runs on the current refresh token, and only on its
success does the core proceed. -/
lemma request_succ_pf {n : Nat} {cfg : Config} {m e : String} {kw : Kwargs}
    {w : World} (hpf : preflightNeeded w.st = true) :
    request (n + 1) cfg m e kw w =
      match refresh_access_token n cfg w.st.refresh_token
          ((w.withSt fun st => { st with actively_refreshing := true }).emit
            (.refreshStart w.st.refresh_token)) with
      | (.error e1, w2) => (.error e1, w2)
      | (.ok _, w2) => requestCore n cfg m e kw w2 := by
  simp only [request, requestCore, refresh_access_token, engine, preflightStep, hpf]
  simp

/-- One fuel step of `requestCore`. -/
lemma requestCore_succ {n : Nat} {cfg : Config} {m e : String} {kw : Kwargs}
    {w : World} :
    requestCore (n + 1) cfg m e kw w =
      coreStep cfg m e (fun k w1 => request n cfg m e k w1) kw w := rfl

/-- One fuel step of `authenticate`. -/
lemma authenticate_succ {n : Nat} {cfg : Config} {p : AuthPayload} {w : World} :
    authenticate (n + 1) cfg p w =
      authStep cfg (fun m e k w1 => request n cfg m e k w1) p w := rfl

/-- One fuel step of `refresh_access_token`. -/
lemma refresh_succ {n : Nat} {cfg : Config} {rt : Option String} {w : World} :
    refresh_access_token (n + 1) cfg rt w =
      refreshStep cfg (fun p w1 => authenticate n cfg p w1) rt w := rfl



/-- C6: on a failure-status response (>= 400, the statuses
`raise_for_status` raises for), `request` classifies in priority order:
a decoded `error == "mfa_required"` is returned as ordinary data; a decoded
`type == "NoRemoteManagement"` raises Endpoint-Unavailable; 403 raises
Invalid-Credentials; any other non-401 failure raises a generic
Request-Error carrying the endpoint; and a JSON-decode failure alone (on a
success status) never raises — the body degrades to the raw text wrapped as
an error dict. -/
theorem claim_C6_classification (n : Nat) (cfg : Config) (m e : String)
    (kw : Kwargs) (w : World) (rr : NetResp)
    (hpf : preflightNeeded w.st = false)
    (hresp : w.net w.ix = NetResult.resp rr) :
    (¬ rr.status < 400 → ((mkData rr).error == some "mfa_required") = true →
       (request (n + 2) cfg m e kw w).1 = .ok (mkData rr))
    ∧ (¬ rr.status < 400 → ((mkData rr).error == some "mfa_required") = false →
       ((mkData rr).typ == some "NoRemoteManagement") = true →
       (request (n + 2) cfg m e kw w).1 = .error (.endpointUnavailable e))
    ∧ (((mkData rr).error == some "mfa_required") = false →
       ((mkData rr).typ == some "NoRemoteManagement") = false →
       rr.status = 403 →
       (request (n + 2) cfg m e kw w).1 =
         .error (.invalidCredentials "Invalid username/password"))
    ∧ (¬ rr.status < 400 → (rr.status == 401) = false → (rr.status == 403) = false →
       ((mkData rr).error == some "mfa_required") = false →
       ((mkData rr).typ == some "NoRemoteManagement") = false →
       (request (n + 2) cfg m e kw w).1 = .error (.requestError e))
    ∧ (rr.body = none → rr.status < 400 →
       (request (n + 2) cfg m e kw w).1 = .ok { error := some rr.text }) := by
  refine ⟨?_, ?_, ?_, ?_, ?_⟩
  · intro h1 h2
    rw [request_succ_nopf hpf, requestCore_succ, coreStep_mfa hresp h1 h2]
  · intro h1 h2 h3
    rw [request_succ_nopf hpf, requestCore_succ, coreStep_nrm hresp h1 h2 h3]
  · intro h1 h2 h3
    have hst : ¬ rr.status < 400 := by omega
    have hs401 : (rr.status == 401) = false := by simp [h3]
    have hs403 : (rr.status == 403) = true := by simp [h3]
    rw [request_succ_nopf hpf, requestCore_succ,
      coreStep_403 hresp hst h1 h2 hs401 hs403]
  · intro h1 h2 h3 h4 h5
    rw [request_succ_nopf hpf, requestCore_succ,
      coreStep_other hresp h1 h4 h5 h2 h3]
  · intro hb hlt
    rw [request_succ_nopf hpf, requestCore_succ, coreStep_ok hresp hlt]
    simp [mkData, hb]

/-- C6 witness response: a 403 carrying the `mfa_required` marker. -/
def respC6 : NetResp :=
  { status := 403, body := some { error := some "mfa_required" } }

/-- C6 witness world. -/
def wC6 : World := { st := {}, net := netOf [NetResult.resp respC6] }

/-- C6 witness: a 403 response whose body is the `mfa_required` marker is
returned as ordinary data by a concrete run. -/
theorem claim_C6_classification_witness :
    (request 3 {} "get" "ep" {} wC6).1 = .ok { error := some "mfa_required" } :=
  (claim_C6_classification 1 {} "get" "ep" {} wC6 respC6
    (by decide) rfl).1 (by decide) (by decide)



/-- A raise from the initial token exchange propagates out of `authenticate`. -/
lemma authStep_token_error {cfg : Config}
    {call : String → String → Kwargs → World → Except Err Body × World}
    {p : AuthPayload} {w : World} {err : Err} {w1 : World}
    (h : call "post" "api/token" { json := some p } w = (.error err, w1)) :
    authStep cfg call p w = (.error err, w1) := by
  simp only [authStep, h]

/-- A raise from `authenticate` propagates out of `refresh_access_token`
(and, notably, leaves the guard write unexecuted). -/
lemma refreshStep_error {cfg : Config}
    {doAuth : AuthPayload → World → Except Err Body × World}
    {rt : Option String} {w : World} {err : Err} {w1 : World}
    (h : doAuth { grant_type := some "refresh_token",
                  client_id := some cfg.client_id,
                  refresh_token := some rt } w = (.error err, w1)) :
    refreshStep cfg doAuth rt w = (.error err, w1) := by
  simp only [refreshStep, h]

/-- C1: 401 handling of `request`.  With a first 401 response (not tolerated
as `mfa_required`/`NoRemoteManagement`): inside an active refresh the call
fails immediately with Invalid-Credentials after exactly the one HTTP call;
outside a refresh with no truthy refresh token it fails immediately with
Invalid-Credentials after exactly the one HTTP call; outside a refresh with
a refresh token present the stored expiry is forced to the current instant
and the same call is re-issued exactly once — and when the refresh's own
token exchange receives the second 401 while the guard is set, the whole
call fails with Invalid-Credentials after exactly two HTTP calls (no loop),
with exactly one pre-flight refresh fired. -/
theorem claim_C1_401_behavior (n : Nat) (cfg : Config) (m e : String)
    (kw : Kwargs) (w : World) (rr : NetResp)
    (hresp : w.net w.ix = NetResult.resp rr)
    (hst : ¬ rr.status < 400)
    (hmfa : ((mkData rr).error == some "mfa_required") = false)
    (hnrm : ((mkData rr).typ == some "NoRemoteManagement") = false)
    (hs401 : (rr.status == 401) = true) :
    (w.st.actively_refreshing = true →
       (request (n + 2) cfg m e kw w).1 =
         .error (.invalidCredentials "Repeated 401s despite refreshing access token")
       ∧ httpCallsOf (request (n + 2) cfg m e kw w).2.log =
           httpCallsOf w.log ++ [(m, e)])
    ∧ (w.st.actively_refreshing = false → truthyS w.st.refresh_token = false →
       preflightNeeded w.st = false →
       (request (n + 2) cfg m e kw w).1 =
         .error (.invalidCredentials "Invalid username/password")
       ∧ httpCallsOf (request (n + 2) cfg m e kw w).2.log =
           httpCallsOf w.log ++ [(m, e)])
    ∧ (∀ rr2 : NetResp, w.st.actively_refreshing = false →
       truthyS w.st.refresh_token = true →
       preflightNeeded w.st = false →
       w.net (w.ix + 1) = NetResult.resp rr2 →
       ¬ rr2.status < 400 →
       ((mkData rr2).error == some "mfa_required") = false →
       ((mkData rr2).typ == some "NoRemoteManagement") = false →
       (rr2.status == 401) = true →
       (request (n + 7) cfg m e kw w).1 =
         .error (.invalidCredentials "Repeated 401s despite refreshing access token")
       ∧ httpCallsOf (request (n + 7) cfg m e kw w).2.log =
           httpCallsOf w.log ++ [(m, e), ("post", "api/token")]
       ∧ countRS (request (n + 7) cfg m e kw w).2.log = countRS w.log + 1
       ∧ (request (n + 7) cfg m e kw w).2.st.access_token_expire = some w.st.now) := by
  refine ⟨?_, ?_, ?_⟩
  · intro hg
    rw [request_succ_nopf (preflightNeeded_of_guard hg), requestCore_succ,
      coreStep_401_guard hresp hst hmfa hnrm hs401 hg]
    exact ⟨rfl, by simp⟩
  · intro hg hrt hpf
    rw [request_succ_nopf hpf, requestCore_succ,
      coreStep_401_norefresh hresp hst hmfa hnrm hs401 hg hrt]
    exact ⟨rfl, by simp⟩
  · intro rr2 hg hrt hpf hresp2 hst2 hmfa2 hnrm2 hs4012
    have hpf4 : preflightNeeded ((afterSend cfg m e (injectHeaders w.st kw) w).withSt fun st => { st with access_token_expire := some st.now }).st = true := by
      simp [preflightNeeded, hg]
    have hg5 : ((((afterSend cfg m e (injectHeaders w.st kw) w).withSt fun st => { st with access_token_expire := some st.now }).withSt fun st => { st with actively_refreshing := true }).emit (Event.refreshStart ((afterSend cfg m e (injectHeaders w.st kw) w).withSt fun st => { st with access_token_expire := some st.now }).st.refresh_token)).st.actively_refreshing = true := by simp
    have hresp5 : ((((afterSend cfg m e (injectHeaders w.st kw) w).withSt fun st => { st with access_token_expire := some st.now }).withSt fun st => { st with actively_refreshing := true }).emit (Event.refreshStart ((afterSend cfg m e (injectHeaders w.st kw) w).withSt fun st => { st with access_token_expire := some st.now }).st.refresh_token)).net ((((afterSend cfg m e (injectHeaders w.st kw) w).withSt fun st => { st with access_token_expire := some st.now }).withSt fun st => { st with actively_refreshing := true }).emit (Event.refreshStart ((afterSend cfg m e (injectHeaders w.st kw) w).withSt fun st => { st with access_token_expire := some st.now }).st.refresh_token)).ix = NetResult.resp rr2 := by
      simpa using hresp2
    have htok : request (n + 2) cfg "post" "api/token" { json := some { grant_type := some "refresh_token", client_id := some cfg.client_id, refresh_token := some ((afterSend cfg m e (injectHeaders w.st kw) w).withSt fun st => { st with access_token_expire := some st.now }).st.refresh_token } } ((((afterSend cfg m e (injectHeaders w.st kw) w).withSt fun st => { st with access_token_expire := some st.now }).withSt fun st => { st with actively_refreshing := true }).emit (Event.refreshStart ((afterSend cfg m e (injectHeaders w.st kw) w).withSt fun st => { st with access_token_expire := some st.now }).st.refresh_token)) = (.error (Err.invalidCredentials "Repeated 401s despite refreshing access token"), (closePool (cfg.hasSession && !cfg.sessionClosed) (afterSend cfg "post" "api/token" (injectHeaders ((((afterSend cfg m e (injectHeaders w.st kw) w).withSt fun st => { st with access_token_expire := some st.now }).withSt fun st => { st with actively_refreshing := true }).emit (Event.refreshStart ((afterSend cfg m e (injectHeaders w.st kw) w).withSt fun st => { st with access_token_expire := some st.now }).st.refresh_token)).st { json := some { grant_type := some "refresh_token", client_id := some cfg.client_id, refresh_token := some ((afterSend cfg m e (injectHeaders w.st kw) w).withSt fun st => { st with access_token_expire := some st.now }).st.refresh_token } }) ((((afterSend cfg m e (injectHeaders w.st kw) w).withSt fun st => { st with access_token_expire := some st.now }).withSt fun st => { st with actively_refreshing := true }).emit (Event.refreshStart ((afterSend cfg m e (injectHeaders w.st kw) w).withSt fun st => { st with access_token_expire := some st.now }).st.refresh_token))))) := by
      rw [request_succ_nopf (preflightNeeded_of_guard hg5), requestCore_succ,
        @coreStep_401_guard cfg "post" "api/token" (fun k w1 => request n cfg "post" "api/token" k w1) { json := some { grant_type := some "refresh_token", client_id := some cfg.client_id, refresh_token := some ((afterSend cfg m e (injectHeaders w.st kw) w).withSt fun st => { st with access_token_expire := some st.now }).st.refresh_token } } ((((afterSend cfg m e (injectHeaders w.st kw) w).withSt fun st => { st with access_token_expire := some st.now }).withSt fun st => { st with actively_refreshing := true }).emit (Event.refreshStart ((afterSend cfg m e (injectHeaders w.st kw) w).withSt fun st => { st with access_token_expire := some st.now }).st.refresh_token)) rr2 hresp5 hst2 hmfa2 hnrm2 hs4012 hg5]
    have hauth : authenticate (n + 3) cfg { grant_type := some "refresh_token", client_id := some cfg.client_id, refresh_token := some ((afterSend cfg m e (injectHeaders w.st kw) w).withSt fun st => { st with access_token_expire := some st.now }).st.refresh_token } ((((afterSend cfg m e (injectHeaders w.st kw) w).withSt fun st => { st with access_token_expire := some st.now }).withSt fun st => { st with actively_refreshing := true }).emit (Event.refreshStart ((afterSend cfg m e (injectHeaders w.st kw) w).withSt fun st => { st with access_token_expire := some st.now }).st.refresh_token)) = (.error (Err.invalidCredentials "Repeated 401s despite refreshing access token"), (closePool (cfg.hasSession && !cfg.sessionClosed) (afterSend cfg "post" "api/token" (injectHeaders ((((afterSend cfg m e (injectHeaders w.st kw) w).withSt fun st => { st with access_token_expire := some st.now }).withSt fun st => { st with actively_refreshing := true }).emit (Event.refreshStart ((afterSend cfg m e (injectHeaders w.st kw) w).withSt fun st => { st with access_token_expire := some st.now }).st.refresh_token)).st { json := some { grant_type := some "refresh_token", client_id := some cfg.client_id, refresh_token := some ((afterSend cfg m e (injectHeaders w.st kw) w).withSt fun st => { st with access_token_expire := some st.now }).st.refresh_token } }) ((((afterSend cfg m e (injectHeaders w.st kw) w).withSt fun st => { st with access_token_expire := some st.now }).withSt fun st => { st with actively_refreshing := true }).emit (Event.refreshStart ((afterSend cfg m e (injectHeaders w.st kw) w).withSt fun st => { st with access_token_expire := some st.now }).st.refresh_token))))) := by
      rw [authenticate_succ]
      exact @authStep_token_error cfg (fun m1 e1 k w1 => request (n + 2) cfg m1 e1 k w1) { grant_type := some "refresh_token", client_id := some cfg.client_id, refresh_token := some ((afterSend cfg m e (injectHeaders w.st kw) w).withSt fun st => { st with access_token_expire := some st.now }).st.refresh_token } ((((afterSend cfg m e (injectHeaders w.st kw) w).withSt fun st => { st with access_token_expire := some st.now }).withSt fun st => { st with actively_refreshing := true }).emit (Event.refreshStart ((afterSend cfg m e (injectHeaders w.st kw) w).withSt fun st => { st with access_token_expire := some st.now }).st.refresh_token)) (Err.invalidCredentials "Repeated 401s despite refreshing access token") (closePool (cfg.hasSession && !cfg.sessionClosed) (afterSend cfg "post" "api/token" (injectHeaders ((((afterSend cfg m e (injectHeaders w.st kw) w).withSt fun st => { st with access_token_expire := some st.now }).withSt fun st => { st with actively_refreshing := true }).emit (Event.refreshStart ((afterSend cfg m e (injectHeaders w.st kw) w).withSt fun st => { st with access_token_expire := some st.now }).st.refresh_token)).st { json := some { grant_type := some "refresh_token", client_id := some cfg.client_id, refresh_token := some ((afterSend cfg m e (injectHeaders w.st kw) w).withSt fun st => { st with access_token_expire := some st.now }).st.refresh_token } }) ((((afterSend cfg m e (injectHeaders w.st kw) w).withSt fun st => { st with access_token_expire := some st.now }).withSt fun st => { st with actively_refreshing := true }).emit (Event.refreshStart ((afterSend cfg m e (injectHeaders w.st kw) w).withSt fun st => { st with access_token_expire := some st.now }).st.refresh_token)))) htok
    have hret : request (n + 5) cfg m e (injectHeaders w.st kw) ((afterSend cfg m e (injectHeaders w.st kw) w).withSt fun st => { st with access_token_expire := some st.now }) = (.error (Err.invalidCredentials "Repeated 401s despite refreshing access token"), (closePool (cfg.hasSession && !cfg.sessionClosed) (afterSend cfg "post" "api/token" (injectHeaders ((((afterSend cfg m e (injectHeaders w.st kw) w).withSt fun st => { st with access_token_expire := some st.now }).withSt fun st => { st with actively_refreshing := true }).emit (Event.refreshStart ((afterSend cfg m e (injectHeaders w.st kw) w).withSt fun st => { st with access_token_expire := some st.now }).st.refresh_token)).st { json := some { grant_type := some "refresh_token", client_id := some cfg.client_id, refresh_token := some ((afterSend cfg m e (injectHeaders w.st kw) w).withSt fun st => { st with access_token_expire := some st.now }).st.refresh_token } }) ((((afterSend cfg m e (injectHeaders w.st kw) w).withSt fun st => { st with access_token_expire := some st.now }).withSt fun st => { st with actively_refreshing := true }).emit (Event.refreshStart ((afterSend cfg m e (injectHeaders w.st kw) w).withSt fun st => { st with access_token_expire := some st.now }).st.refresh_token))))) := by
      rw [request_succ_pf hpf4, refresh_succ,
        @refreshStep_error cfg (fun p w1 => authenticate (n + 3) cfg p w1) ((afterSend cfg m e (injectHeaders w.st kw) w).withSt fun st => { st with access_token_expire := some st.now }).st.refresh_token ((((afterSend cfg m e (injectHeaders w.st kw) w).withSt fun st => { st with access_token_expire := some st.now }).withSt fun st => { st with actively_refreshing := true }).emit (Event.refreshStart ((afterSend cfg m e (injectHeaders w.st kw) w).withSt fun st => { st with access_token_expire := some st.now }).st.refresh_token)) (Err.invalidCredentials "Repeated 401s despite refreshing access token") (closePool (cfg.hasSession && !cfg.sessionClosed) (afterSend cfg "post" "api/token" (injectHeaders ((((afterSend cfg m e (injectHeaders w.st kw) w).withSt fun st => { st with access_token_expire := some st.now }).withSt fun st => { st with actively_refreshing := true }).emit (Event.refreshStart ((afterSend cfg m e (injectHeaders w.st kw) w).withSt fun st => { st with access_token_expire := some st.now }).st.refresh_token)).st { json := some { grant_type := some "refresh_token", client_id := some cfg.client_id, refresh_token := some ((afterSend cfg m e (injectHeaders w.st kw) w).withSt fun st => { st with access_token_expire := some st.now }).st.refresh_token } }) ((((afterSend cfg m e (injectHeaders w.st kw) w).withSt fun st => { st with access_token_expire := some st.now }).withSt fun st => { st with actively_refreshing := true }).emit (Event.refreshStart ((afterSend cfg m e (injectHeaders w.st kw) w).withSt fun st => { st with access_token_expire := some st.now }).st.refresh_token)))) hauth]
    rw [request_succ_nopf hpf, requestCore_succ,
      @coreStep_401_retry cfg m e (fun k w1 => request (n + 5) cfg m e k w1) kw w rr hresp hst hmfa hnrm hs401 hg hrt (.error (Err.invalidCredentials "Repeated 401s despite refreshing access token")) (closePool (cfg.hasSession && !cfg.sessionClosed) (afterSend cfg "post" "api/token" (injectHeaders ((((afterSend cfg m e (injectHeaders w.st kw) w).withSt fun st => { st with access_token_expire := some st.now }).withSt fun st => { st with actively_refreshing := true }).emit (Event.refreshStart ((afterSend cfg m e (injectHeaders w.st kw) w).withSt fun st => { st with access_token_expire := some st.now }).st.refresh_token)).st { json := some { grant_type := some "refresh_token", client_id := some cfg.client_id, refresh_token := some ((afterSend cfg m e (injectHeaders w.st kw) w).withSt fun st => { st with access_token_expire := some st.now }).st.refresh_token } }) ((((afterSend cfg m e (injectHeaders w.st kw) w).withSt fun st => { st with access_token_expire := some st.now }).withSt fun st => { st with actively_refreshing := true }).emit (Event.refreshStart ((afterSend cfg m e (injectHeaders w.st kw) w).withSt fun st => { st with access_token_expire := some st.now }).st.refresh_token)))) hret]
    refine ⟨rfl, ?_, ?_, ?_⟩
    · simp
    · simp
    · simp

/-- C1 witness response: a plain 401. -/
def r401w : NetResp := { status := 401, body := some {} }

/-- C1 witness world: a session with a refresh token, served two 401s. -/
def w401w : World :=
  { st := { access_token := some "tok", refresh_token := some "r" },
    net := netOf [NetResult.resp r401w, NetResult.resp r401w] }

/-- C1 witness: on the concrete double-401 run the call fails with
Invalid-Credentials after exactly the original call and the one refresh
token exchange, with one pre-flight refresh fired. -/
theorem claim_C1_401_behavior_witness :
    (request 7 {} "get" "ep" {} w401w).1 =
      .error (.invalidCredentials "Repeated 401s despite refreshing access token")
    ∧ httpCallsOf (request 7 {} "get" "ep" {} w401w).2.log =
      [("get", "ep"), ("post", "api/token")]
    ∧ countRS (request 7 {} "get" "ep" {} w401w).2.log = 1
    ∧ (request 7 {} "get" "ep" {} w401w).2.st.access_token_expire = some 0 := by
  have h := (claim_C1_401_behavior 0 {} "get" "ep" {} w401w r401w rfl
    (by decide) (by decide) (by decide) (by decide)).2.2 r401w rfl
    (by decide) rfl rfl (by decide) (by decide) (by decide) (by decide)
  exact ⟨h.1, h.2.1, h.2.2.1, h.2.2.2⟩



/-- Running the refresh routine from a state with the guard already set adds
no pre-flight firing to the log. -/
lemma refresh_countRS {n : Nat} {cfg : Config} {rt : Option String} {w : World}
    {r2 : Except Err Body} {w2 : World}
    (h : refresh_access_token n cfg rt w = (r2, w2))
    (hg : w.st.actively_refreshing = true) :
    countRS w2.log = countRS w.log := by
  cases n with
  | zero =>
    simp only [refresh_access_token, engine, Prod.mk.injEq] at h
    rw [← h.2]
  | succ n =>
    rw [refresh_succ] at h
    simp only [refreshStep] at h
    split at h <;> rename_i heq
    · cases h
      exact (engine_guard_true n cfg (Op.auth _) w _ _ heq hg rfl).2
    · cases h
      simpa using (engine_guard_true n cfg (Op.auth _) w _ _ heq hg rfl).2

/-- C2: amended — `refresh_access_token` clears the "actively refreshing"
guard only when the underlying `authenticate` call returns successfully; on
a raise the guard write never executes, so a guard that was set stays set
(there is no `try`/`finally` in the source).  The original claim ("on
completion, success or failure") fails; see the counterexample. -/
theorem claim_C2_guard_clear :
    (∀ (fuel : Nat) (cfg : Config) (rt : Option String) (w : World)
       (b : Body) (w2 : World),
       refresh_access_token fuel cfg rt w = (.ok b, w2) →
       w2.st.actively_refreshing = false)
    ∧ (∀ (fuel : Nat) (cfg : Config) (rt : Option String) (w : World)
       (err : Err) (w2 : World),
       refresh_access_token fuel cfg rt w = (.error err, w2) →
       w.st.actively_refreshing = true →
       w2.st.actively_refreshing = true) := by
  constructor
  · intro fuel cfg rt w b w2 h
    cases fuel with
    | zero => simp [refresh_access_token, engine] at h
    | succ n =>
      rw [refresh_succ] at h
      simp only [refreshStep] at h
      split at h <;> rename_i heq
      · cases h
      · cases h
        simp
  · intro fuel cfg rt w err w2 h hg
    cases fuel with
    | zero =>
      simp only [refresh_access_token, engine, Prod.mk.injEq] at h
      rw [← h.2]
      exact hg
    | succ n =>
      rw [refresh_succ] at h
      simp only [refreshStep] at h
      split at h <;> rename_i heq
      · cases h
        exact (engine_guard_true n cfg (Op.auth _) w _ _ heq hg rfl).1
      · cases h

/-- C2 witness network: a clean token refresh (token exchange then
authCheck). -/
def wit2net : Nat → NetResult :=
  netOf [NetResult.resp { status := 200, body := some { access_token := some "new", expires_in := some 3600, refresh_token := some "r2" } },
         NetResult.resp { status := 200, body := some { userId := some 5 } }]

/-- C2 witness: a successful refresh from a guard-set state ends with the
guard cleared. -/
theorem claim_C2_guard_clear_witness :
    (refresh_access_token 6 {} (some "r")
      { st := { actively_refreshing := true }, net := wit2net }).2.st.actively_refreshing
      = false :=
  claim_C2_guard_clear.1 6 {} (some "r")
    { st := { actively_refreshing := true }, net := wit2net } {}
    (refresh_access_token 6 {} (some "r")
      { st := { actively_refreshing := true }, net := wit2net }).2
    (Prod.ext (by rfl) rfl)

/-- C2 counterexample: a 500 on the token exchange makes `authenticate`
raise, and the guard — set before the call, as the pre-flight does — is
still set afterwards, where the claim demands it be cleared on failure. -/
theorem claim_C2_guard_clear_counterexample :
    (refresh_access_token 5 {} (some "r")
      { st := { actively_refreshing := true },
        net := netOf [NetResult.resp { status := 500, body := some {} }] }).1
      = .error (.requestError "api/token")
    ∧ (refresh_access_token 5 {} (some "r")
      { st := { actively_refreshing := true },
        net := netOf [NetResult.resp { status := 500, body := some {} }] }).2.st.actively_refreshing
      = true :=
  ⟨rfl, rfl⟩

/-- C4: a successful non-MFA `authenticate` (token exchange succeeds with
`access_token`/`expires_in`/`refresh_token` and no `mfa_token`, lifetime
over the 60-second margin, and the authCheck succeeds) stores the expiry
instant (call time + expires_in − 60) together with the new tokens and user
id; and whenever the pre-flight condition holds (expiry set, now at or past
it, guard unset), `request` sets the guard, runs the refresh routine on the
current refresh token before the core call proceeds, and that pre-flight
refresh fires exactly once (the refresh itself fires no further one). -/
theorem claim_C4_expiry_preflight :
    (∀ (n : Nat) (cfg : Config) (p : AuthPayload) (w : World) (rr : NetResp)
       (b : Body) (rr2 : NetResp) (b2 : Body) (a : String) (life : Int)
       (rt : String) (uid : Int),
       preflightNeeded w.st = false →
       w.net w.ix = NetResult.resp rr → rr.status < 400 → rr.body = some b →
       b.mfa_token = none → b.access_token = some a → b.expires_in = some life →
       b.refresh_token = some rt → 60 < life →
       w.net (w.ix + 1) = NetResult.resp rr2 → rr2.status < 400 →
       rr2.body = some b2 → b2.userId = some uid →
       (authenticate (n + 3) cfg p w).1 = .ok {}
       ∧ (authenticate (n + 3) cfg p w).2.st.access_token = some a
       ∧ (authenticate (n + 3) cfg p w).2.st.access_token_expire =
           some (w.st.now + life - 60)
       ∧ (authenticate (n + 3) cfg p w).2.st.refresh_token = some rt
       ∧ (authenticate (n + 3) cfg p w).2.st.user_id = some uid)
    ∧ (∀ (n : Nat) (cfg : Config) (m e : String) (kw : Kwargs) (w : World),
       preflightNeeded w.st = true →
       (request (n + 1) cfg m e kw w =
         match refresh_access_token n cfg w.st.refresh_token
             ((w.withSt fun st => { st with actively_refreshing := true }).emit
               (.refreshStart w.st.refresh_token)) with
         | (.error e1, w2) => (.error e1, w2)
         | (.ok _, w2) => requestCore n cfg m e kw w2)
       ∧ ∀ (r2 : Except Err Body) (w2 : World),
           refresh_access_token n cfg w.st.refresh_token
             ((w.withSt fun st => { st with actively_refreshing := true }).emit
               (.refreshStart w.st.refresh_token)) = (r2, w2) →
           countRS w2.log = countRS w.log + 1) := by
  constructor
  · intro n cfg p w rr b rr2 b2 a life rt uid hpf h1 h2 h3 h4 h5 h6 h7 h8 h9 h10 h11 h12
    have hb : mkData rr = b := by simp [mkData, h3]
    have htok : request (n + 2) cfg "post" "api/token" { json := some p } w =
        (.ok b, (closePool (cfg.hasSession && !cfg.sessionClosed) (afterSend cfg "post" "api/token" (injectHeaders w.st { json := some p }) w))) := by
      rw [request_succ_nopf hpf, requestCore_succ, coreStep_ok h1 h2, hb]
    have hpf2 : preflightNeeded ((((closePool (cfg.hasSession && !cfg.sessionClosed) (afterSend cfg "post" "api/token" (injectHeaders w.st { json := some p }) w)).withSt fun st => { st with access_token := some a }).withSt fun st => { st with access_token_expire := some (st.now + life - 60), issued_at := some st.now, issued_lifetime := some life }).withSt fun st => { st with refresh_token := some rt }).st = false := by
      have hx : ¬ (w.st.now + life - 60 ≤ w.st.now) := by omega
      simp [preflightNeeded, hx]
    have hresp2 : ((((closePool (cfg.hasSession && !cfg.sessionClosed) (afterSend cfg "post" "api/token" (injectHeaders w.st { json := some p }) w)).withSt fun st => { st with access_token := some a }).withSt fun st => { st with access_token_expire := some (st.now + life - 60), issued_at := some st.now, issued_lifetime := some life }).withSt fun st => { st with refresh_token := some rt }).net ((((closePool (cfg.hasSession && !cfg.sessionClosed) (afterSend cfg "post" "api/token" (injectHeaders w.st { json := some p }) w)).withSt fun st => { st with access_token := some a }).withSt fun st => { st with access_token_expire := some (st.now + life - 60), issued_at := some st.now, issued_lifetime := some life }).withSt fun st => { st with refresh_token := some rt }).ix = NetResult.resp rr2 := by
      simpa using h9
    have hb2 : mkData rr2 = b2 := by simp [mkData, h11]
    have hacheck : request (n + 2) cfg "get" "api/authCheck" {} ((((closePool (cfg.hasSession && !cfg.sessionClosed) (afterSend cfg "post" "api/token" (injectHeaders w.st { json := some p }) w)).withSt fun st => { st with access_token := some a }).withSt fun st => { st with access_token_expire := some (st.now + life - 60), issued_at := some st.now, issued_lifetime := some life }).withSt fun st => { st with refresh_token := some rt }) =
        (.ok b2, (closePool (cfg.hasSession && !cfg.sessionClosed) (afterSend cfg "get" "api/authCheck" (injectHeaders ((((closePool (cfg.hasSession && !cfg.sessionClosed) (afterSend cfg "post" "api/token" (injectHeaders w.st { json := some p }) w)).withSt fun st => { st with access_token := some a }).withSt fun st => { st with access_token_expire := some (st.now + life - 60), issued_at := some st.now, issued_lifetime := some life }).withSt fun st => { st with refresh_token := some rt }).st {}) ((((closePool (cfg.hasSession && !cfg.sessionClosed) (afterSend cfg "post" "api/token" (injectHeaders w.st { json := some p }) w)).withSt fun st => { st with access_token := some a }).withSt fun st => { st with access_token_expire := some (st.now + life - 60), issued_at := some st.now, issued_lifetime := some life }).withSt fun st => { st with refresh_token := some rt })))) := by
      rw [request_succ_nopf hpf2, requestCore_succ, coreStep_ok hresp2 h10, hb2]
    have hmain : authenticate (n + 3) cfg p w = (.ok {}, (((closePool (cfg.hasSession && !cfg.sessionClosed) (afterSend cfg "get" "api/authCheck" (injectHeaders ((((closePool (cfg.hasSession && !cfg.sessionClosed) (afterSend cfg "post" "api/token" (injectHeaders w.st { json := some p }) w)).withSt fun st => { st with access_token := some a }).withSt fun st => { st with access_token_expire := some (st.now + life - 60), issued_at := some st.now, issued_lifetime := some life }).withSt fun st => { st with refresh_token := some rt }).st {}) ((((closePool (cfg.hasSession && !cfg.sessionClosed) (afterSend cfg "post" "api/token" (injectHeaders w.st { json := some p }) w)).withSt fun st => { st with access_token := some a }).withSt fun st => { st with access_token_expire := some (st.now + life - 60), issued_at := some st.now, issued_lifetime := some life }).withSt fun st => { st with refresh_token := some rt }))).withSt fun st => { st with user_id := some uid }).emit (Event.wsInit (((closePool (cfg.hasSession && !cfg.sessionClosed) (afterSend cfg "get" "api/authCheck" (injectHeaders ((((closePool (cfg.hasSession && !cfg.sessionClosed) (afterSend cfg "post" "api/token" (injectHeaders w.st { json := some p }) w)).withSt fun st => { st with access_token := some a }).withSt fun st => { st with access_token_expire := some (st.now + life - 60), issued_at := some st.now, issued_lifetime := some life }).withSt fun st => { st with refresh_token := some rt }).st {}) ((((closePool (cfg.hasSession && !cfg.sessionClosed) (afterSend cfg "post" "api/token" (injectHeaders w.st { json := some p }) w)).withSt fun st => { st with access_token := some a }).withSt fun st => { st with access_token_expire := some (st.now + life - 60), issued_at := some st.now, issued_lifetime := some life }).withSt fun st => { st with refresh_token := some rt }))).withSt fun st => { st with user_id := some uid }).st.access_token.getD "") uid))) := by
      rw [authenticate_succ]
      simp only [authStep, htok, h4, h5, h6, h7, hacheck, h12]
    rw [hmain]
    refine ⟨rfl, ?_, ?_, ?_, ?_⟩ <;> simp
  · intro n cfg m e kw w hpf
    refine ⟨request_succ_pf hpf, ?_⟩
    intro r2 w2 h
    have hcount := refresh_countRS h (by simp)
    simpa using hcount

/-- C4 witness token response. -/
def wit4r1 : NetResp :=
  { status := 200, body := some { access_token := some "tok", expires_in := some 3600, refresh_token := some "r" } }

/-- C4 witness authCheck response. -/
def wit4r2 : NetResp := { status := 200, body := some { userId := some 7 } }

/-- C4 witness world. -/
def wit4w : World := { st := {}, net := netOf [NetResult.resp wit4r1, NetResult.resp wit4r2] }

/-- C4 witness: a concrete successful login at time 0 with a 3600-second
lifetime stores expiry 3540 = 0 + 3600 − 60. -/
theorem claim_C4_expiry_preflight_witness :
    (authenticate 3 {} {} wit4w).2.st.access_token_expire = some 3540 := by
  have h := claim_C4_expiry_preflight.1 0 {} {} wit4w wit4r1
    { access_token := some "tok", expires_in := some 3600, refresh_token := some "r" }
    wit4r2 { userId := some 7 } "tok" 3600 "r" 7
    rfl rfl (by decide) rfl rfl rfl rfl rfl (by decide) rfl (by decide) rfl rfl
  simpa using h.2.2.1



/-- C3: amended MFA flow.  When the token exchange yields an `mfa_token`,
`authenticate` issues the out-of-band challenge and then a second token
exchange with the out-of-band grant type — exactly these two follow-up
calls — and raises Pending-Authorization whenever the second exchange
returns (its decoded body is discarded, so even a tolerated non-2xx outcome
such as the `mfa_required` marker still ends in Pending-Authorization); but
if the second exchange itself raises a classified error, that error
propagates instead of Pending-Authorization, and no tokens are stored on
any of these paths.  (The original "regardless of the outcome ... even if
the second token exchange itself fails" is refuted by the counterexample.) -/
theorem claim_C3_mfa_flow (n : Nat) (cfg : Config) (p : AuthPayload)
    (w : World) (b : Body) (m1 : String) (w1 : World) (bc : Body)
    (oob : String) (w2 : World)
    (htok : request (n + 2) cfg "post" "api/token" { json := some p } w = (.ok b, w1))
    (hmfa : b.mfa_token = some m1)
    (hch : request (n + 2) cfg "post" "api/mfa/challenge"
      { json := some { challenge_type := some "oob", client_id := some cfg.client_id_string, mfa_token := some m1 } } w1 = (.ok bc, w2))
    (hoob : bc.oob_code = some oob) :
    (∀ (b3 : Body) (w3 : World),
       request (n + 2) cfg "post" "api/token"
         { json := some { client_id := some cfg.client_id_string, grant_type := some API_URL_MFA_OOB, mfa_token := some m1, oob_code := some oob, scope := some "offline_access" } } w2 = (.ok b3, w3) →
       authenticate (n + 3) cfg p w = (.error .pendingAuthorization, w3))
    ∧ (∀ (err : Err) (w3 : World),
       request (n + 2) cfg "post" "api/token"
         { json := some { client_id := some cfg.client_id_string, grant_type := some API_URL_MFA_OOB, mfa_token := some m1, oob_code := some oob, scope := some "offline_access" } } w2 = (.error err, w3) →
       authenticate (n + 3) cfg p w = (.error err, w3)) := by
  constructor
  · intro b3 w3 hsec
    rw [authenticate_succ]
    simp only [authStep, htok, hmfa, hch, hoob, hsec]
  · intro err w3 hsec
    rw [authenticate_succ]
    simp only [authStep, htok, hmfa, hch, hoob, hsec]

/-- C3 witness network: mfa token, challenge code, then a 403 with the
tolerated `mfa_required` marker on the second exchange. -/
def wit3w : World :=
  { st := {},
    net := netOf [NetResult.resp { status := 200, body := some { mfa_token := some "m" } },
                  NetResult.resp { status := 200, body := some { oob_code := some "c" } },
                  NetResult.resp { status := 403, body := some { error := some "mfa_required" } }] }

/-- C3 witness: on the concrete MFA run whose second exchange returns the
`mfa_required` marker, `authenticate` raises Pending-Authorization. -/
theorem claim_C3_mfa_flow_witness :
    (authenticate 5 {} {} wit3w).1 = .error .pendingAuthorization := by
  have h := (claim_C3_mfa_flow 2 {} {} wit3w { mfa_token := some "m" } "m"
    (request 4 {} "post" "api/token" { json := some {} } wit3w).2
    { oob_code := some "c" } "c"
    (request 4 {} "post" "api/mfa/challenge"
      { json := some { challenge_type := some "oob", client_id := some (Config.client_id_string {}), mfa_token := some "m" } }
      (request 4 {} "post" "api/token" { json := some {} } wit3w).2).2
    (Prod.ext (by rfl) rfl) rfl (Prod.ext (by rfl) rfl) rfl).1
    { error := some "mfa_required" }
    (request 4 {} "post" "api/token"
      { json := some { client_id := some (Config.client_id_string {}), grant_type := some API_URL_MFA_OOB, mfa_token := some "m", oob_code := some "c", scope := some "offline_access" } }
      (request 4 {} "post" "api/mfa/challenge"
        { json := some { challenge_type := some "oob", client_id := some (Config.client_id_string {}), mfa_token := some "m" } }
        (request 4 {} "post" "api/token" { json := some {} } wit3w).2).2).2
    (Prod.ext (by rfl) rfl)
  exact congrArg Prod.fst h

/-- C3 counterexample world: the second exchange answers 500 with no
tolerated marker. -/
def cw3 : World :=
  { st := {},
    net := netOf [NetResult.resp { status := 200, body := some { mfa_token := some "m" } },
                  NetResult.resp { status := 200, body := some { oob_code := some "c" } },
                  NetResult.resp { status := 500, body := some {} }] }

/-- C3 counterexample: when the second token exchange raises (a 500 turned
Request-Error), `authenticate` propagates that error and does not raise
Pending-Authorization, contradicting "regardless of the outcome of that
second token exchange". -/
theorem claim_C3_mfa_flow_counterexample :
    (authenticate 10 {} {} cw3).1 = .error (.requestError "api/token")
    ∧ (authenticate 10 {} {} cw3).1 ≠ .error .pendingAuthorization := by
  constructor
  · rfl
  · decide

/-- C10: amended — on a session whose stored expiry and refresh token are
absent (the state of a fresh password login), the MFA branch leaves the
credential fields (access token, expiry, refresh token) exactly as they
were, whatever the outcome: the Pending-Authorization raise happens before
the token-assignment step and none of the branch's inner calls can fire the
pre-flight refresh or the 401 expiry overwrite.  (On a dirty session the
inner pre-flight can rewrite credentials before the raise; see the
counterexample.) -/
theorem claim_C10_mfa_credentials (n : Nat) (cfg : Config) (p : AuthPayload)
    (w : World) (b : Body) (m1 : String) (w1 : World)
    (hexp : w.st.access_token_expire = none)
    (hrt : w.st.refresh_token = none)
    (htok : request (n + 2) cfg "post" "api/token" { json := some p } w = (.ok b, w1))
    (hmfa : b.mfa_token = some m1) :
    ∀ (r : Except Err Body) (w9 : World),
      authenticate (n + 3) cfg p w = (r, w9) →
      w9.st.access_token = w.st.access_token
      ∧ w9.st.access_token_expire = none ∧ w9.st.refresh_token = none := by
  intro r w9 hA
  have h1 := engine_cred_frozen (n + 2) cfg (Op.req "post" "api/token" { json := some p }) w _ _ htok rfl hexp hrt
  rw [authenticate_succ] at hA
  simp only [authStep, htok, hmfa] at hA
  split at hA <;> rename_i heq2
  · cases hA
    have h2 := engine_cred_frozen (n + 2) cfg
      (Op.req "post" "api/mfa/challenge" _) w1 _ _ heq2 rfl h1.2.1 h1.2.2
    exact ⟨h2.1.trans h1.1, h2.2.1, h2.2.2⟩
  · have h2 := engine_cred_frozen (n + 2) cfg
      (Op.req "post" "api/mfa/challenge" _) w1 _ _ heq2 rfl h1.2.1 h1.2.2
    split at hA
    · cases hA
      exact ⟨h2.1.trans h1.1, h2.2.1, h2.2.2⟩
    · split at hA <;> rename_i heq3
      · cases hA
        have h3 := engine_cred_frozen (n + 2) cfg (Op.req "post" "api/token" _) _ _ _ heq3 rfl h2.2.1 h2.2.2
        exact ⟨h3.1.trans (h2.1.trans h1.1), h3.2.1, h3.2.2⟩
      · cases hA
        have h3 := engine_cred_frozen (n + 2) cfg (Op.req "post" "api/token" _) _ _ _ heq3 rfl h2.2.1 h2.2.2
        exact ⟨h3.1.trans (h2.1.trans h1.1), h3.2.1, h3.2.2⟩

/-- C10 witness world: a fresh session served the MFA trio. -/
def wit10 : World :=
  { st := {},
    net := netOf [NetResult.resp { status := 200, body := some { mfa_token := some "m" } },
                  NetResult.resp { status := 200, body := some { oob_code := some "c" } },
                  NetResult.resp { status := 403, body := some { error := some "mfa_required" } }] }

/-- C10 witness: the concrete fresh-session MFA run ends with all credential
fields still unset. -/
theorem claim_C10_mfa_credentials_witness :
    (authenticate 5 {} {} wit10).2.st.access_token = none
    ∧ (authenticate 5 {} {} wit10).2.st.access_token_expire = none
    ∧ (authenticate 5 {} {} wit10).2.st.refresh_token = none := by
  have h := claim_C10_mfa_credentials 2 {} {} wit10 { mfa_token := some "m" } "m"
    (request 4 {} "post" "api/token" { json := some {} } wit10).2
    rfl rfl (Prod.ext (by rfl) rfl) rfl
    (authenticate 5 {} {} wit10).1 (authenticate 5 {} {} wit10).2
    (Prod.ext rfl rfl)
  exact h

/-- C10 counterexample world: an authenticated session with a past expiry
and a refresh token, whose refresh succeeds with new tokens before the MFA
trio arrives. -/
def cw10 : World :=
  { st := { access_token := some "old", access_token_expire := some 0, refresh_token := some "r", now := 100 },
    net := netOf [NetResult.resp { status := 200, body := some { access_token := some "new", expires_in := some 3600, refresh_token := some "r2" } },
                  NetResult.resp { status := 200, body := some { userId := some 5 } },
                  NetResult.resp { status := 200, body := some { mfa_token := some "m" } },
                  NetResult.resp { status := 200, body := some { oob_code := some "c" } },
                  NetResult.resp { status := 403, body := some { error := some "mfa_required" } }] }

/-- C10 counterexample: `authenticate` takes the MFA branch and raises
Pending-Authorization, yet the stored credentials changed (the inner
pre-flight refresh replaced the access token before the raise). -/
theorem claim_C10_mfa_credentials_counterexample :
    (authenticate 12 {} {} cw10).1 = .error .pendingAuthorization
    ∧ cw10.st.access_token = some "old"
    ∧ (authenticate 12 {} {} cw10).2.st.access_token = some "new" :=
  ⟨rfl, rfl, rfl⟩



/-- The registry `get_systems` builds, as a pure function of the
subscriptions (defined for runs where every present version is recognized). -/
def buildReg : List Subscription → List (String × SystemObj) → List (String × SystemObj)
  | [], acc => acc
  | sd :: rest, acc =>
    match sd.location.system.version with
    | none => buildReg rest acc
    | some v => buildReg rest (dinsert acc sd.sid ⟨v, sd.location⟩)

@[simp] lemma skipWarnsOf_append (l1 l2 : List Event) :
    skipWarnsOf (l1 ++ l2) = skipWarnsOf l1 ++ skipWarnsOf l2 :=
  List.filterMap_append _ _ _

@[simp] lemma skipWarnsOf_single_skipWarn (sid : Int) :
    skipWarnsOf [Event.skipWarn sid] = [sid] := rfl

@[simp] lemma skipWarnsOf_single_httpCall (m e : String) (kw : Kwargs) :
    skipWarnsOf [Event.httpCall m e kw] = [] := rfl

@[simp] lemma skipWarnsOf_openPool (b : Bool) (w : World) :
    skipWarnsOf (openPool b w).log = skipWarnsOf w.log := by
  unfold openPool; split
  · rfl
  · simp only [emit_log, skipWarnsOf_append]
    simp [skipWarnsOf]

@[simp] lemma skipWarnsOf_closePool (b : Bool) (w : World) :
    skipWarnsOf (closePool b w).log = skipWarnsOf w.log := by
  unfold closePool; split
  · rfl
  · simp only [emit_log, skipWarnsOf_append]
    simp [skipWarnsOf]

@[simp] lemma skipWarnsOf_afterSend (cfg : Config) (m e : String)
    (kw1 : Kwargs) (w : World) :
    skipWarnsOf (afterSend cfg m e kw1 w).log = skipWarnsOf w.log := by
  simp [afterSend]

/-- Dict insertion of a fresh key appends. -/
lemma dinsert_not_mem {m : List (String × SystemObj)} {k : String}
    {v : SystemObj} (h : ¬ k ∈ m.map Prod.fst) :
    dinsert m k v = m ++ [(k, v)] := by
  induction m with
  | nil => rfl
  | cons kv rest ih =>
    simp only [List.map_cons, List.mem_cons] at h
    push_neg at h
    simp only [dinsert]
    rw [if_neg (by simpa using fun hh => h.1 (by rw [hh]))]
    rw [ih h.2]
    simp

/-- Registry keys: with distinct subscription ids, the built registry's keys
are exactly the ids of the subscriptions carrying a version, in order. -/
lemma buildReg_keys : ∀ (subs : List Subscription)
    (acc : List (String × SystemObj)),
    (acc.map Prod.fst ++ subs.map Subscription.sid).Nodup →
    (buildReg subs acc).map Prod.fst =
      acc.map Prod.fst ++
        ((subs.filter fun s => s.location.system.version.isSome).map Subscription.sid) := by
  intro subs
  induction subs with
  | nil => intro acc _; simp [buildReg]
  | cons sd rest ih =>
    intro acc hnd
    cases hv : sd.location.system.version with
    | none =>
      simp only [buildReg, hv]
      rw [ih acc ?_]
      · simp [List.filter_cons, hv]
      · refine (hnd.sublist ?_)
        exact ((List.sublist_cons_self _ _).append_left _)
    | some v =>
      have hfresh : ¬ sd.sid ∈ acc.map Prod.fst := by
        rw [List.nodup_append] at hnd
        intro hin
        exact hnd.2.2 hin (by simp)
      simp only [buildReg, hv]
      rw [dinsert_not_mem hfresh]
      rw [ih (acc ++ [(sd.sid, SystemObj.mk v sd.location)]) (by
        simp only [List.map_append, List.map_cons, List.map_nil]
        rw [List.append_assoc]
        simpa using hnd)]
      simp [List.filter_cons, hv]

/-- The subscription loop under recognized versions: no exception, the
`buildReg` registry, and a skip warning exactly per missing-version
subscription. -/
lemma buildSystems_spec : ∀ (subs : List Subscription)
    (acc : List (String × SystemObj)) (w : World),
    (∀ s ∈ subs, ∀ v, s.location.system.version = some v → v = 2 ∨ v = 3) →
    (buildSystems subs acc w).1 = .ok (buildReg subs acc)
    ∧ skipWarnsOf (buildSystems subs acc w).2.log =
        skipWarnsOf w.log ++
          ((subs.filter fun s => s.location.system.version.isNone).map
            fun s => s.location.sid) := by
  intro subs
  induction subs with
  | nil => intro acc w _; simp [buildSystems, buildReg]
  | cons sd rest ih =>
    intro acc w hv
    have hsd := hv sd (by simp)
    have hrest : ∀ s ∈ rest, ∀ v, s.location.system.version = some v → v = 2 ∨ v = 3 :=
      fun s hs => hv s (by simp [hs])
    cases hver : sd.location.system.version with
    | none =>
      simp only [buildSystems, buildReg, hver]
      have h1 := ih acc (w.emit (Event.skipWarn sd.location.sid)) hrest
      refine ⟨h1.1, ?_⟩
      rw [h1.2]
      simp [List.filter_cons, hver]
    | some v =>
      have hv23 : (v == 2 || v == 3) = true := by
        rcases hsd v hver with h | h <;> simp [h]
      simp only [buildSystems, buildReg, hver, hv23, if_true]
      have h1 := ih (dinsert acc sd.sid ⟨v, sd.location⟩) w hrest
      refine ⟨h1.1, ?_⟩
      rw [h1.2]
      simp [List.filter_cons, hver]

/-- C5: amended — `get_systems` skips (with a logged warning and no
exception) exactly the subscriptions whose location version discriminant is
missing, and returns a registry keyed by subscription id containing exactly
one entry per subscription that carries a version — provided every version
present is a recognized one (2 or 3).  A present but unrecognized version is
a `SYSTEM_MAP` KeyError for the whole call, not a skip; see the
counterexample refuting the original claim. -/
theorem claim_C5_version_skip (n : Nat) (cfg : Config) (w : World)
    (rr : NetResp) (b : Body) (subs : List Subscription)
    (hpf : preflightNeeded w.st = false)
    (h1 : w.net w.ix = NetResult.resp rr) (h2 : rr.status < 400)
    (h3 : rr.body = some b) (h4 : b.subscriptions = some subs)
    (hv : ∀ s ∈ subs, ∀ v, s.location.system.version = some v → v = 2 ∨ v = 3)
    (hnd : (subs.map Subscription.sid).Nodup) :
    (get_systems (n + 2) cfg w).1 = .ok (buildReg subs [])
    ∧ (buildReg subs []).map Prod.fst =
        ((subs.filter fun s => s.location.system.version.isSome).map Subscription.sid)
    ∧ skipWarnsOf (get_systems (n + 2) cfg w).2.log =
        skipWarnsOf w.log ++
          ((subs.filter fun s => s.location.system.version.isNone).map
            fun s => s.location.sid) := by
  have hb : mkData rr = b := by simp [mkData, h3]
  have hreq : request (n + 2) cfg "get"
      ("users/" ++ uidString w.st.user_id ++ "/subscriptions")
      { params := some [("activeOnly", "true")] } w =
      (.ok b, closePool (cfg.hasSession && !cfg.sessionClosed)
        (afterSend cfg "get" ("users/" ++ uidString w.st.user_id ++ "/subscriptions")
          (injectHeaders w.st { params := some [("activeOnly", "true")] }) w)) := by
    rw [request_succ_nopf hpf, requestCore_succ, coreStep_ok h1 h2, hb]
  have hmain : get_systems (n + 2) cfg w =
      buildSystems subs []
        (closePool (cfg.hasSession && !cfg.sessionClosed)
          (afterSend cfg "get" ("users/" ++ uidString w.st.user_id ++ "/subscriptions")
            (injectHeaders w.st { params := some [("activeOnly", "true")] }) w)) := by
    simp only [get_systems, get_subscription_data, hreq, h4]
  have hspec := buildSystems_spec subs []
    (closePool (cfg.hasSession && !cfg.sessionClosed)
      (afterSend cfg "get" ("users/" ++ uidString w.st.user_id ++ "/subscriptions")
        (injectHeaders w.st { params := some [("activeOnly", "true")] }) w)) hv
  refine ⟨by rw [hmain]; exact hspec.1, buildReg_keys subs [] (by simpa using hnd), ?_⟩
  rw [hmain]
  rw [hspec.2]
  simp

/-- C5 witness subscriptions: one version-3, one with the version missing. -/
def wit5s1 : Subscription := { sid := "A", location := { sid := 1, system := { version := some 3 } } }

/-- C5 witness subscription without a version. -/
def wit5s2 : Subscription := { sid := "B", location := { sid := 2, system := {} } }

/-- C5 witness world. -/
def wit5w : World :=
  { st := {},
    net := netOf [NetResult.resp { status := 200, body := some { subscriptions := some [wit5s1, wit5s2] } }] }

/-- C5 witness: with one version-3 subscription and one missing-version
subscription, the returned registry has exactly the one entry and the
missing one is only warned about. -/
theorem claim_C5_version_skip_witness :
    (get_systems 2 {} wit5w).1 =
      .ok [("A", SystemObj.mk 3 { sid := 1, system := { version := some 3 } })]
    ∧ skipWarnsOf (get_systems 2 {} wit5w).2.log = [2] := by
  have h := claim_C5_version_skip 0 {} wit5w
    { status := 200, body := some { subscriptions := some [wit5s1, wit5s2] } }
    { subscriptions := some [wit5s1, wit5s2] } [wit5s1, wit5s2]
    rfl rfl (by decide) rfl rfl
    (by
      intro s hs v hv
      simp only [List.mem_cons, List.not_mem_nil, or_false] at hs
      rcases hs with rfl | rfl
      · right
        have hv2 : some (3 : Int) = some v := hv
        injection hv2 with hv3
        omega
      · exact absurd hv (by simp [wit5s2]))
    (by decide)
  exact ⟨h.1, h.2.2⟩

/-- C5 counterexample world: a single subscription carrying the
unrecognized version 4. -/
def cw5 : World :=
  { st := {},
    net := netOf [NetResult.resp { status := 200, body := some { subscriptions := some [{ sid := "X", location := { sid := 9, system := { version := some 4 } } }] } }] }

/-- C5 counterexample: a present but unrecognized version is not skipped
with a warning — `get_systems` raises a `SYSTEM_MAP` lookup error and warns
about nothing, where the claim requires a skip-with-warning and a registry
without the entry. -/
theorem claim_C5_version_skip_counterexample :
    (get_systems 2 {} cw5).1 = .error (.keyError "SYSTEM_MAP")
    ∧ skipWarnsOf (get_systems 2 {} cw5).2.log = [] :=
  ⟨rfl, rfl⟩

/-- Boolean well-formedness of one scripted network outcome. -/
def wfRespB : NetResult → Bool
  | .resp r =>
    match r.body with
    | some b => !b.access_token.isSome || b.expires_in.isSome
    | none => true
  | .connError => true

/-- A scripted oracle only ever serves entries of its script. -/
lemma netOf_mem : ∀ (l : List NetResult) (i : Nat) (r : NetResp),
    netOf l i = NetResult.resp r → NetResult.resp r ∈ l := by
  intro l
  induction l with
  | nil =>
    intro i r h
    simp [netOf] at h
  | cons x rest ih =>
    intro i r h
    cases i with
    | zero =>
      simp only [netOf, List.getD_cons_zero] at h
      rw [h]
      exact List.mem_cons_self _ _
    | succ i =>
      simp only [netOf, List.getD_cons_succ] at h
      exact List.mem_cons_of_mem _ (ih i r h)

/-- A finite script whose entries all pass `wfRespB` is a well-formed
network. -/
lemma WFnet_netOf {l : List NetResult} (h : ∀ x ∈ l, wfRespB x = true) :
    WFnet (netOf l) := by
  intro i r b hres hbody htok
  have hmem : NetResult.resp r ∈ l := netOf_mem l i r hres
  have h2 := h _ hmem
  simp only [wfRespB, hbody] at h2
  rcases Bool.or_eq_true_iff.mp h2 with h3 | h3
  · rw [Bool.not_eq_true'] at h3
    rw [h3] at htok
    cases htok
  · exact h3

/-- C7: amended credential invariant.  Under well-formed network scripts
(every token body carrying `access_token` also carries `expires_in`), every
state reachable through the public operations pairs a non-null access token
with a non-null expiry instant.  The stronger original claim fails: the
expiry is not always (issue time + lifetime − 60) — `request`'s 401 handler
overwrites it with the current instant — and with a malformed token
response `authenticate` stores a token and then raises before storing any
expiry; see the counterexample. -/
theorem claim_C7_invariant (w : World) (hw : ReachableWF w) : Inv w.st :=
  (reachableWF_wf_inv hw).2

/-- C7 witness network: one clean login exchange. -/
def wit7net : Nat → NetResult :=
  netOf [NetResult.resp { status := 200, body := some { access_token := some "x", expires_in := some 3600, refresh_token := some "r" } },
         NetResult.resp { status := 200, body := some { userId := some 5 } }]

/-- C7 witness start world (a freshly constructed session). -/
def wit7w : World := { st := { initState 0 with email := none }, net := wit7net }

/-- C7 witness: on a concrete reachable state holding an access token, the
invariant yields a stored expiry. -/
theorem claim_C7_invariant_witness :
    ((authenticate 6 {} {} wit7w).2).st.access_token_expire.isSome = true :=
  claim_C7_invariant (authenticate 6 {} {} wit7w).2
    (ReachableWF.step_authenticate wit7w
      (ReachableWF.init 0 wit7net none (WFnet_netOf (by decide))) 6 {} {})
    (by decide)

/-- C7 counterexample network: the token response has `access_token` and
`refresh_token` but no `expires_in`. -/
def cw7net : Nat → NetResult :=
  netOf [NetResult.resp { status := 200, body := some { access_token := some "x", refresh_token := some "r" } }]

/-- C7 counterexample start world. -/
def cw7w : World := { st := { initState 0 with email := none }, net := cw7net }

/-- C7 counterexample: a reachable state (one `authenticate` call on a fresh
session, fed a malformed token response) holds an access token with no
stored expiry at all — the `expires_in` read raises after the token
assignment already happened, refuting the claimed pairing. -/
theorem claim_C7_invariant_counterexample :
    Reachable (authenticate 5 {} {} cw7w).2
    ∧ (authenticate 5 {} {} cw7w).2.st.access_token = some "x"
    ∧ (authenticate 5 {} {} cw7w).2.st.access_token_expire = none
    ∧ (authenticate 5 {} {} cw7w).1 = .error (.keyError "expires_in") :=
  ⟨Reachable.step_authenticate cw7w (Reachable.init 0 cw7net none) 5 {} {},
   rfl, rfl, rfl⟩

/-- C8: amended pool discipline.  On any run in which every network
exchange yields a response (no connection-level raise before a response
exists), `request` closes exactly as many locally created pools as it
creates, on success, classified error and retry paths alike; and an
externally injected open session is never closed (no pool events at all).
If the connection attempt itself raises, the locally created pool escapes
the `try`/`finally` unclosed; see the counterexample refuting the
unconditional claim. -/
theorem claim_C8_pool :
    (∀ (fuel : Nat) (cfg : Config) (m e : String) (kw : Kwargs) (w : World),
       (∀ i, w.net i ≠ NetResult.connError) →
       countPC (request fuel cfg m e kw w).2.log + countPX w.log =
         countPX (request fuel cfg m e kw w).2.log + countPC w.log)
    ∧ (∀ (fuel : Nat) (cfg : Config) (m e : String) (kw : Kwargs) (w : World),
       (cfg.hasSession && !cfg.sessionClosed) = true →
       countPC (request fuel cfg m e kw w).2.log = countPC w.log
       ∧ countPX (request fuel cfg m e kw w).2.log = countPX w.log) := by
  constructor
  · intro fuel cfg m e kw w hnc
    exact engine_pool_balance fuel cfg (Op.req m e kw) w
      (request fuel cfg m e kw w).1 (request fuel cfg m e kw w).2 rfl hnc
  · intro fuel cfg m e kw w hu
    exact engine_pool_external fuel cfg (Op.req m e kw) w
      (request fuel cfg m e kw w).1 (request fuel cfg m e kw w).2 rfl hu

/-- C8 witness world: every exchange yields a 200. -/
def wit8w : World :=
  { st := {}, net := fun _ => NetResult.resp { status := 200, body := some {} } }

/-- C8 witness: pool events balance on a concrete connection-error-free run. -/
theorem claim_C8_pool_witness :
    countPC (request 5 {} "get" "ep" {} wit8w).2.log + countPX wit8w.log =
      countPX (request 5 {} "get" "ep" {} wit8w).2.log + countPC wit8w.log :=
  claim_C8_pool.1 5 {} "get" "ep" {} wit8w
    (fun _ h => NetResult.noConfusion h)

/-- C8 counterexample world: the connection attempt itself raises. -/
def cw8 : World := { st := {}, net := fun _ => NetResult.connError }

/-- C8 counterexample: on a connection-level `ClientError` the call raises
with the locally created pool never closed (one creation, zero closings),
refuting "closed on every execution path ... including when the call
raises". -/
theorem claim_C8_pool_counterexample :
    (request 2 {} "get" "ep" {} cw8).1 = .error .clientError
    ∧ countPC (request 2 {} "get" "ep" {} cw8).2.log = 1
    ∧ countPX (request 2 {} "get" "ep" {} cw8).2.log = 0 :=
  ⟨rfl, rfl, rfl⟩


end Simplipy
